import Mathlib

/-!
# Verification of `docker_to_uefi_bootable_image`

A shallow embedding of the repository (src/src/lib.rs, src/src/main.rs,
src/src/bin/docker_to_uefi_bootable_image.rs) and proofs about it.

The program is a sequential provisioning pipeline that shells out to external
tools (`losetup`, `sgdisk`, `mount`, `chroot`, ...).  We model:

* `Output` / `run_with_env` — the command executor of lib.rs;
* a small state monad `M` whose state carries the trace of external-command
  invocations and the stack of live RAII resources (`Mount`, `LoopbackDevice`,
  `DropCommand`), so that Rust's drop semantics (release in reverse declaration
  order on error return, panic-in-drop unwinding) are represented explicitly;
* the two binaries' `main` functions as monadic pipelines over an oracle
  environment `Env` supplying each external command's result and the outcome
  of each fallible Rust-side filesystem operation.
-/

/-- The captured result of an external command, mirroring `std::process::Output`:
exit code plus raw stdout/stderr byte vectors. -/
structure Output where
  code : Nat
  stdout : List Nat
  stderr : List Nat
deriving DecidableEq

instance : Inhabited Output := ⟨⟨0, [], []⟩⟩

/-- Rust's `.iter().map(|x| (*x as char).to_string()).collect::<String>()`:
each byte is interpreted as the Unicode scalar with the same value. -/
def bytesToString (bs : List Nat) : String :=
  String.mk (bs.map (fun b => Char.ofNat b))

/-- `pre` is a leading segment of `s`, char by char (Rust `str::starts_with`). -/
def listLeadsWith : List Char → List Char → Bool
  | [], _ => true
  | _ :: _, [] => false
  | p :: ps, c :: cs => (p == c) && listLeadsWith ps cs

/-- Rust `str::starts_with(pre)`. -/
def strLeadsWith (s pre : String) : Bool :=
  listLeadsWith pre.data s.data

/-- Rust `str::split(c)`: split at every occurrence of `c`; an empty string
yields one empty piece. -/
def splitOnChar (c : Char) : List Char → List (List Char)
  | [] => [[]]
  | x :: xs =>
      match splitOnChar c xs with
      | [] => [[]]
      | y :: ys => if x == c then [] :: y :: ys else (x :: y) :: ys

/-- Rust `str::split('\n')` on a `String`. -/
def strSplitNewline (s : String) : List String :=
  (splitOnChar '\n' s.data).map String.mk

/-- `if text.ends_with('\n') { text.pop(); }` from lib.rs. -/
def stripTrailingNewline (s : String) : String :=
  match s.data.getLast? with
  | some c => if c == '\n' then String.mk s.data.dropLast else s
  | none => s

/-- `output_stdout_string` from src/src/lib.rs lines 16-28. -/
def output_stdout_string (o : Output) : String :=
  stripTrailingNewline (bytesToString o.stdout)

/-- `output_stderr_string` from src/src/lib.rs lines 30-42. -/
def output_stderr_string (o : Output) : String :=
  stripTrailingNewline (bytesToString o.stderr)

/-- `run_with_env` from src/src/lib.rs lines 48-72, over an oracle `exec` that
returns `none` for a spawn/io failure (`cmd.output()?`) and `some out` for a
completed child.  A non-zero exit is turned into an error carrying the captured
stderr; a zero exit returns the whole `Output`. -/
def run_with_env (exec : String → List String → List (String × String) → Option Output)
    (exe : String) (args : List String) (env_vars : List (String × String)) :
    Except String Output :=
  match exec exe args env_vars with
  | none => Except.error "io error"
  | some result =>
      if result.code == 0 then Except.ok result
      else Except.error ("Command failed!\n" ++ output_stderr_string result)

/-- `run` from src/src/lib.rs line 44: `run_with_env` with an empty environment. -/
def runCmdModel (exec : String → List String → List (String × String) → Option Output)
    (exe : String) (args : List String) : Except String Output :=
  run_with_env exec exe args []

/-- The UUID filter applied to `blkid -o export` output in both binaries:
`.split('\n').filter(|x| x.starts_with("UUID=")).collect::<String>()` —
the matching lines concatenated with no separator. -/
def uuidFilterLines (ls : List String) : String :=
  String.join (ls.filter (fun l => strLeadsWith l "UUID="))

/-- Full filter from a captured `Output` (src/src/bin, lines 497-503 etc.). -/
def uuidFilter (o : Output) : String :=
  uuidFilterLines (strSplitNewline (output_stdout_string o))

/-- fstab root entry written by the clap binary (line 505-509). -/
def fstabRootLine (u : String) : String :=
  u ++ " / ext4 defaults,errors=remount-ro 0 1"

/-- fstab EFI entry (line 519). -/
def fstabEfiLine (u : String) : String :=
  u ++ " /boot/efi vfat defaults 0 2"

/-- fstab tmpfs entry written on the Alpine path (line 522). -/
def fstabTmpfsLine : String :=
  "tmpfs /tmp tmpfs nosuid,nodev 0 0"

/-- fstab swap entry written on the Alpine path (line 537). -/
def fstabSwapLine (u : String) : String :=
  u ++ " swap swap defaults 0 0"

/-- fstab root entry written by the structopt binary, src/src/main.rs line 432
(note: no `defaults,`). -/
def fstabRootLineMainRs (u : String) : String :=
  u ++ " / ext4 errors=remount-ro 0 1"

/-- `GRUB_DEVICE=` line of /etc/default/grub (bin line 599, main.rs line 476). -/
def grubDeviceLine (u : String) : String :=
  "GRUB_DEVICE=" ++ u

/-- The Alpine kernel-module-version enumeration check, src/src/bin lines
661-677: the listed directory names are counted; anything other than exactly
one is a fatal error (`bail!("incorrect number of kernel vers")`); with exactly
one, `Vec::pop` yields the last (hence unique) element. -/
def alpineKernelVersionCheck (dirs : List String) : Except String String :=
  if dirs.length != 1 then Except.error "incorrect number of kernel vers"
  else Except.ok (dirs.getLastD "")

/-- `OsFlavor` from src/src/bin lines 46-51. -/
inductive OsFlavor where
  | debian
  | ubuntu
  | alpine
deriving DecidableEq

/-- Modelled from the spec: the clap `ValueEnum` derive for `OsFlavor` (library
code, not under src/) accepts exactly the kebab-case variant names and rejects
anything else at argument-parse time, before `main`'s body runs. -/
def parseOsFlavor (s : String) : Option OsFlavor :=
  if s = "debian" then some OsFlavor.debian
  else if s = "ubuntu" then some OsFlavor.ubuntu
  else if s = "alpine" then some OsFlavor.alpine
  else none

/-- `kernel_pkg` selection in the clap binary (lines 199-203). -/
def kernelPkgOf : OsFlavor → String
  | OsFlavor.debian => "linux-image-amd64"
  | OsFlavor.ubuntu => "linux-image-generic"
  | OsFlavor.alpine => "linux-image-unreachable"


/-! ## The pipeline monad

External effects are modelled by an oracle `Env`; the monad state `St` records
the sequence of observable events (external-command invocations, file writes,
the one raw `spawn`) and the stack of live RAII resources, so that the drop
behaviour of `Mount`, `LoopbackDevice` and `DropCommand` on both the success
path and every abort path is explicit. -/

/-- An observable pipeline event. -/
inductive Event where
  /-- An external command issued through `run` / `run_with_env`
  (or from a `Drop` impl). -/
  | cmd (exe : String) (args : List String) (envv : List (String × String))
  /-- A line written into the mounted image by Rust code (`writeln!`). -/
  | fsWrite (path : String) (content : String)
  /-- The raw `Command::new("chroot").spawn()` used for `passwd`. -/
  | spawn (exe : String) (args : List String)
deriving DecidableEq

/-- A live RAII resource, with a model-assigned identity.  Its `Drop` impl
issues the listed commands when it is released. -/
inductive Res where
  /-- `Mount` (lib.rs 142-176): drop runs `sync` then `umount dest`. -/
  | mount (id : Nat) (dest : String)
  /-- `LoopbackDevice` (lib.rs 112-140): drop runs `losetup -d path`. -/
  | loopdev (id : Nat) (path : String)
  /-- Modelled from the spec: the repository's `DropCommand` guard is not
  present under src/ (the clap binary imports it from the library crate); per
  the spec it registers an acquire/release guard that, on teardown, runs a
  command stopping the background init services started by `setup-alpine`. -/
  | dropCommand (id : Nat) (exe : String) (args : List String)
deriving DecidableEq

def Res.rid : Res → Nat
  | Res.mount i _ => i
  | Res.loopdev i _ => i
  | Res.dropCommand i _ _ => i

def Res.isLoop : Res → Bool
  | Res.loopdev _ _ => true
  | _ => false

/-- The monad state. -/
structure St where
  trace : List Event
  live : List Res
  nextId : Nat
  cmdIdx : Nat
  ioIdx : Nat

/-- The oracle environment: results of the external world, indexed by
invocation order. -/
structure Env where
  /-- Result of the `n`-th external command: `none` is a spawn/io failure,
  `some o` a completed child with exit code `o.code`. -/
  execResult : Nat → Option Output
  /-- Whether the `n`-th fallible Rust-side io operation (tempdir, file create,
  copy, read, write, child spawn) succeeds. -/
  ioOk : Nat → Bool
  /-- Entries of `<root>/lib/modules/` read by the Alpine arm. -/
  modulesDirs : List String
  /-- Contents of `<root>/etc/apk/world` read by the Alpine arm. -/
  worldContent : String
  /-- The `tempfile::tempdir()` path. -/
  wd : String
  /-- The `uuid::Uuid::new_v4()` container name. -/
  tempname : String
  /-- The random 16-char password generated when none is supplied. -/
  randPasswd : String
  /-- Result of `passwd.wait_with_output()`: `none` is an io failure;
  the exit status inside `some` is produced but never examined by the code. -/
  passwdResult : Option Output

/-- Pipeline computations: state in, state out, `none` when the program
aborted (error return or panic).  The final state retains the whole trace. -/
def M (α : Type) : Type := Env → St → St × Option α

def Mpure {α : Type} (a : α) : M α := fun _ s => (s, some a)

def Mbind {α β : Type} (m : M α) (f : α → M β) : M β := fun env s =>
  match m env s with
  | (s', some a) => f a env s'
  | (s', none) => (s', none)

instance : Monad M where
  pure := Mpure
  bind := Mbind

@[simp] theorem M_bind_eq {α β : Type} (m : M α) (f : α → M β) :
    m >>= f = Mbind m f := rfl

@[simp] theorem M_pure_eq {α : Type} (a : α) : (pure a : M α) = Mpure a := rfl

@[simp] theorem M_map_eq {α β : Type} (f : α → β) (m : M α) :
    f <$> m = Mbind m (fun a => Mpure (f a)) := rfl

@[simp] theorem Mbind_app {α β : Type} (m : M α) (f : α → M β) (env : Env) (s : St) :
    Mbind m f env s =
      match m env s with
      | (s', some a) => f a env s'
      | (s', none) => (s', none) := rfl

@[simp] theorem Mpure_app {α : Type} (a : α) (env : Env) (s : St) :
    Mpure a env s = (s, some a) := rfl

/-- `run(...)` exit test: the io result is a completed child with exit code 0
(`result.status.success()`). -/
def cmdOk : Option Output → Bool
  | none => false
  | some o => o.code == 0

/-- Release one resource (its `Drop` impl): emits its commands, and reports
whether one of them failed (`.expect(..)` panics). A failing command is the
last one attempted for this resource. -/
def releaseRes (env : Env) (r : Res) (s : St) : St × Bool :=
  match r with
  | Res.mount _ dest =>
      let r1 := env.execResult s.cmdIdx
      let s1 := { s with trace := s.trace ++ [Event.cmd "sync" [] []],
                         cmdIdx := s.cmdIdx + 1 }
      if cmdOk r1 then
        let r2 := env.execResult s1.cmdIdx
        let s2 := { s1 with trace := s1.trace ++ [Event.cmd "umount" [dest] []],
                            cmdIdx := s1.cmdIdx + 1 }
        (s2, !cmdOk r2)
      else (s1, true)
  | Res.loopdev _ path =>
      let r1 := env.execResult s.cmdIdx
      let s1 := { s with trace := s.trace ++ [Event.cmd "losetup" ["-d", path] []],
                         cmdIdx := s.cmdIdx + 1 }
      (s1, !cmdOk r1)
  | Res.dropCommand _ exe args =>
      let r1 := env.execResult s.cmdIdx
      let s1 := { s with trace := s.trace ++ [Event.cmd exe args []],
                         cmdIdx := s.cmdIdx + 1 }
      (s1, !cmdOk r1)

/-- Run the drops of a list of live resources, head first (the model keeps the
live stack newest-first, matching Rust's reverse-declaration drop order).
`unwinding` is true when a panic is already propagating: a second failing drop
is a double panic and the process aborts at once, releasing nothing further.
Returns the final state and whether any drop panicked. -/
def teardownGo (env : Env) : List Res → Bool → St → St × Bool
  | [], unwinding, s => (s, unwinding)
  | r :: rest, unwinding, s =>
      match releaseRes env r s with
      | (s', false) => teardownGo env rest unwinding s'
      | (s', true) => if unwinding then (s', true) else teardownGo env rest true s'

/-- An aborting `?` / `bail!`: the error return leaves `main`'s scope, so every
live resource is dropped in reverse declaration order, then the run ends. -/
def abortRun {α : Type} : M α := fun env s =>
  let p := teardownGo env s.live false { s with live := [] }
  (p.1, none)

/-- `run` / `run_with_env` inside the pipeline: emit the invocation, consult
the oracle, and abort (with drops) unless the child exited 0 — exactly the
non-zero-exit check of lib.rs `run_with_env`. -/
def execCmd (exe : String) (args : List String) (envv : List (String × String)) :
    M Output := fun env s =>
  let r := env.execResult s.cmdIdx
  let s1 := { s with trace := s.trace ++ [Event.cmd exe args envv],
                     cmdIdx := s.cmdIdx + 1 }
  if cmdOk r then (s1, some (r.getD default)) else abortRun env s1

/-- A fallible Rust-side io operation with no observable event. -/
def ioOp : M Unit := fun env s =>
  let ok := env.ioOk s.ioIdx
  let s1 := { s with ioIdx := s.ioIdx + 1 }
  if ok then (s1, some ()) else abortRun env s1

/-- A fallible Rust-side read returning a value from the environment. -/
def ioRead {α : Type} (v : Env → α) : M α := fun env s =>
  let ok := env.ioOk s.ioIdx
  let s1 := { s with ioIdx := s.ioIdx + 1 }
  if ok then (s1, some (v env)) else abortRun env s1

/-- Read a pure value out of the environment (no failure, no event): the
tempdir path held by the `LoopbackDisk`, the generated container name, the
generated password. -/
def envRead {α : Type} (v : Env → α) : M α := fun env s => (s, some (v env))

/-- A `writeln!` into a file inside the image (gated on io success). -/
def writeLineTo (path content : String) : M Unit := fun env s =>
  let ok := env.ioOk s.ioIdx
  let s1 := { s with ioIdx := s.ioIdx + 1,
                     trace := s.trace ++ [Event.fsWrite path content] }
  if ok then (s1, some ()) else abortRun env s1

/-- Push a fresh `Mount` handle (after its mount commands succeeded). -/
def pushMount (dest : String) : M Nat := fun _ s =>
  ({ s with live := Res.mount s.nextId dest :: s.live, nextId := s.nextId + 1 },
   some s.nextId)

/-- Push the `LoopbackDevice`.  It is the first resource the pipelines acquire
and the last one Rust drops, so the model keeps it at the bottom of the live
stack. -/
def pushLoop (path : String) : M Nat := fun _ s =>
  ({ s with live := s.live ++ [Res.loopdev s.nextId path], nextId := s.nextId + 1 },
   some s.nextId)

/-- Push a `DropCommand` guard (see `Res.dropCommand`). -/
def pushDropCommand (exe : String) (args : List String) : M Nat := fun _ s =>
  ({ s with live := Res.dropCommand s.nextId exe args :: s.live,
            nextId := s.nextId + 1 },
   some s.nextId)

/-- `Mount::new` (lib.rs 147-154): `mkdir -p dest`, `mount source dest`,
then the handle is live. -/
def Mount_new (source dest : String) : M Nat := do
  let _ ← execCmd "mkdir" ["-p", dest] []
  let _ ← execCmd "mount" [source, dest] []
  pushMount dest

/-- `Mount::bind` (lib.rs 156-163): `mkdir -p dest`, `mount --bind source dest`. -/
def Mount_bind (source dest : String) : M Nat := do
  let _ ← execCmd "mkdir" ["-p", dest] []
  let _ ← execCmd "mount" ["--bind", source, dest] []
  pushMount dest

/-- `LoopbackDevice::new` (lib.rs 117-126): attach and parse the device path
from the tool's stdout. -/
def LoopbackDevice_new (source_path : String) : M String := do
  let out ← execCmd "losetup" ["--show", "--find", source_path] []
  let path := output_stdout_string out
  let _ ← pushLoop path
  pure path

/-- An explicit `drop(x)` of a live resource, identified by the model id the
acquisition returned (Rust moves the value itself; ids replace that identity).
The pipelines only ever drop mounts and the `DropCommand` guard this way, so
the lookup is restricted to non-loop resources.  If one of the drop's commands
fails, the panic unwinds: the remaining live resources are dropped (a further
failure aborting at once) and the run ends. -/
def explicitDrop (i : Nat) : M Unit := fun env s =>
  match s.live.find? (fun r => !r.isLoop && r.rid == i) with
  | none => (s, some ())
  | some r =>
      let live' := s.live.filter (fun r' => !(r'.rid == i))
      match releaseRes env r { s with live := live' } with
      | (s', false) => (s', some ())
      | (s', true) =>
          let p := teardownGo env s'.live true { s' with live := [] }
          (p.1, none)

/-- End of `main`'s scope on the success path: the remaining live resources
(the loop device) are dropped; a panicking drop makes the process exit
non-zero. -/
def scopeEnd : M Unit := fun env s =>
  let p := teardownGo env s.live false { s with live := [] }
  (p.1, if p.2 then none else some ())

/-- A raw `Command::new(..).spawn()?`: emits a `spawn` event, io-gated. -/
def spawnEv (exe : String) (args : List String) : M Unit := fun env s =>
  let ok := env.ioOk s.ioIdx
  let s1 := { s with ioIdx := s.ioIdx + 1,
                     trace := s.trace ++ [Event.spawn exe args] }
  if ok then (s1, some ()) else abortRun env s1

/-- `passwd.wait_with_output()?`: an io failure aborts; the `Output` inside
`some` — in particular the child's exit status — is dropped unexamined. -/
def passwdWait : M Unit := fun env s =>
  match env.passwdResult with
  | none => abortRun env s
  | some _ => (s, some ())

/-- The raw `passwd` child (bin lines 738-750, main.rs lines 535-547): spawned
(io-gated), fed the password twice on stdin (io-gated writes), then awaited.
`wait_with_output()?` propagates io errors only; the child's exit status is
never examined, unlike every command issued through `run` / `run_with_env`. -/
def passwdStep (root _pw : String) : M Unit := do
  spawnEv "chroot" [root, "passwd"]
  ioOp   -- writeln!(passwd_stdin, "{}", root_passwd)
  ioOp   -- writeln!(passwd_stdin, "{}", root_passwd) (second line)
  passwdWait
  pure ()

/-! ## The two binaries' pipelines -/

/-- `working_dir/output.img` (lib.rs 190-198). -/
def img_path_of (wd : String) : String := wd ++ "/output.img"

/-- `working_dir/mnt` (bin lines 91-95). -/
def mount_root_path (wd : String) : String := wd ++ "/mnt"

/-- `working_dir/export.tar` (bin lines 117-121). -/
def export_path_of (wd : String) : String := wd ++ "/export.tar"

/-- The /answers heredoc for `setup-alpine` (bin lines 262-284), without the
trailing newline `writeln!` appends. -/
def answersContent : String :=
  "\nKEYMAPOPTS=\"us us\"\nHOSTNAMEOPTS=\"alpine\"\nDEVDOPTS=\"mdev\"\nINTERFACESOPTS=\"\nauto lo\niface lo inet loopback\n\nauto eth0\niface eth0 inet dhcp\n    hostname alpine\n\"\nDNSOPTS=\"-d example.com 8.8.8.8\"\nTIMEZONEOPTS=\"UTC\"\nAPKREPOSOPTS=\"-1\"\nUSEROPTS=\"-a -u -g audio,video,netdev alpine\"\nSSHDOPTS=\"openssh\"\nNTPOPTS=\"chrony\"\nDISKOPTS=\"-m sys -k virt /tmp/mnt_loop/\""

/-- The /etc/hosts heredoc (bin lines 551-564). -/
def hostsContent : String :=
  "\n127.0.0.1\tlocalhost localhost.localdomain\n127.0.1.1\talpine\n\n# The following lines are desirable for IPv6 capable hosts\n::1     ip6-localhost ip6-loopback\nfe00::0 ip6-localnet\nff00::0 ip6-mcastprefix\nff02::1 ip6-allnodes\nff02::2 ip6-allrouters\n                "

/-- The runlevel table of the Alpine arm (bin lines 424-458). -/
def runlevelSettings : List (String × String) :=
  [("bootmisc", "boot"), ("hostname", "boot"), ("hwclock", "boot"),
   ("modules", "boot"), ("networking", "boot"), ("seedrng", "boot"),
   ("swap", "boot"), ("sysctl", "boot"), ("syslog", "boot"),
   ("devfs", "sysinit"), ("dmesg", "sysinit"), ("hwdrivers", "sysinit"),
   ("mdev", "sysinit"),
   ("acpid", "default"), ("crond", "default"), ("sshd", "default"),
   ("chronyd", "default"),
   ("killprocs", "shutdown"), ("mount-ro", "shutdown"), ("savecache", "shutdown")]

/-- `for (service, runlevel) in runlevel_settings { run(chroot .. rc-update add ..) }`. -/
def rcUpdateAddAll (root : String) : List (String × String) → M Unit
  | [] => pure ()
  | (svc, lvl) :: rest => do
      let _ ← execCmd "chroot" [root, "rc-update", "add", svc, lvl] []
      rcUpdateAddAll root rest

/-- Everything the later pipeline steps need from the setup phase of the clap
binary: paths derived once (bin lines 78-79, 91-95) and the model ids of the
five mount handles. -/
structure BinCtx where
  wd : String
  loopPath : String
  p2dev : String
  p3dev : String
  root : String
  mnt3 : Nat
  mnt2 : Nat
  bindDev : Nat
  bindProc : Nat
  bindSys : Nat

/-- Clap binary, setup phase (bin lines 70-167): blank disk, loop attach,
partitioning, formatting, mounts, container export and unpack, resolv.conf
copy, bind mounts of /dev, /proc, /sys. -/
def binStagePre (image_name : String) : M BinCtx := do
  -- LoopbackDisk::new: tempdir, File::create, set_len
  ioOp
  ioOp
  ioOp
  let wd ← envRead (fun e => e.wd)
  let imgPath := img_path_of wd
  let loopPath ← LoopbackDevice_new imgPath
  -- PartitionedLoopbackDisk::from (lib.rs 229-264)
  let _ ← execCmd "sgdisk"
    ["-n", "1:2048:4095", "-c", "1:\"BIOS Boot Partition\"", "-t", "1:ef02", loopPath] []
  let _ ← execCmd "sgdisk"
    ["-n", "2:4096:413695", "-c", "2:\"EFI System Partition\"", "-t", "2:ef00", loopPath] []
  let _ ← execCmd "sgdisk" ["-n", "3:413696:", loopPath] []
  let _ ← execCmd "partprobe" [loopPath] []
  -- partition device paths (bin lines 78-79)
  let p2dev := loopPath ++ "p2"
  let p3dev := loopPath ++ "p3"
  let _ ← execCmd "mkfs.vfat" ["-F", "32", p2dev] []
  let _ ← execCmd "mkfs.ext4" [p3dev] []
  let root := mount_root_path wd
  let mnt3 ← Mount_new p3dev root
  let mnt2 ← Mount_new p2dev (root ++ "/boot/efi")
  let _ ← execCmd "mkdir" ["-p", root ++ "/boot/efi/EFI/BOOT/"] []
  let tempname ← envRead (fun e => e.tempname)
  let exportPath := export_path_of wd
  let _ ← execCmd "docker"
    ["run", "-d", "--entrypoint=/bin/sh", "--name", tempname, image_name] []
  let _ ← execCmd "docker" ["export", "-o", exportPath, tempname] []
  let _ ← execCmd "docker" ["stop", tempname] []
  let _ ← execCmd "docker" ["rm", tempname] []
  let _ ← execCmd "tar" ["--sparse", "-C", root, "-xf", exportPath] []
  -- std::fs::copy of /etc/resolv.conf
  ioOp
  let bindDev ← Mount_bind "/dev" (root ++ "/dev")
  let bindProc ← Mount_bind "/proc" (root ++ "/proc")
  let bindSys ← Mount_bind "/sys" (root ++ "/sys")
  pure ⟨wd, loopPath, p2dev, p3dev, root, mnt3, mnt2, bindDev, bindProc, bindSys⟩

/-- Clap binary, package-repository update and installer-package phase
(bin lines 169-491), with the flavor branch: Debian/Ubuntu install the kernel
and bootloader packages (plus optional extras in a second invocation); Alpine
runs `setup-alpine` with an answer file, re-installs the world list, registers
and later drops the `openrc shutdown` guard, and fixes service runlevels. -/
def binStageInstall (root : String) (extra_packages : List String)
    (flavor : OsFlavor) : M Unit := do
  match flavor with
  | OsFlavor.debian | OsFlavor.ubuntu =>
      let _ ← execCmd "chroot" [root, "apt", "update", "-y"] []
      pure ()
  | OsFlavor.alpine =>
      let _ ← execCmd "chroot" [root, "apk", "update"] []
      pure ()
  match flavor with
  | OsFlavor.debian | OsFlavor.ubuntu =>
      let kernel_pkg := kernelPkgOf flavor
      let _ ← execCmd "chroot"
        [root, "apt", "install", "-y", kernel_pkg, "systemd-sysv",
         "grub2-common", "grub-efi-amd64-bin", "initramfs-tools"] []
      if extra_packages.isEmpty then pure ()
      else do
        let _ ← execCmd "chroot"
          ([root, "apt", "install", "-y"] ++ extra_packages) []
        pure ()
  | OsFlavor.alpine => do
      let _ ← execCmd "chroot"
        [root, "apk", "add", "grub-efi", "mkinitfs", "alpine-conf",
         "busybox-openrc"] []
      let guard0 ← pushDropCommand "chroot" [root, "openrc", "shutdown"]
      ioOp -- File::create answers
      writeLineTo (root ++ "/answers") answersContent
      let _ ← execCmd "chroot"
        [root, "/bin/sh", "-x", "/sbin/setup-alpine", "-e", "-f", "-q", "/answers"]
        [("USE_EFI", "1"), ("BOOTLOADER", "none")]
      let world ← ioRead (fun e => e.worldContent)
      let world_lines := (strSplitNewline world).filter (fun x => !(x == ""))
      let _ ← execCmd "chroot"
        ([root, "apk", "add", "--update-cache", "--clean-protected",
          "--repository", "https://dl-cdn.alpinelinux.org/alpine/v3.17/main",
          "--repository", "https://dl-cdn.alpinelinux.org/alpine/v3.17/community",
          "alpine-base", "linux-virt", "openssh", "chrony"] ++ world_lines) []
      explicitDrop guard0
      let _ ← execCmd "chroot" [root, "rc-update", "delete", "acpid", "sysinit"] []
      let _ ← execCmd "chroot" [root, "rc-update", "delete", "crond", "sysinit"] []
      rcUpdateAddAll root runlevelSettings

/-- Clap binary, fstab phase (bin lines 493-545).  Returns `p3_fs_uuid`, which
the grub-defaults write reuses. -/
def binStageFstab (root loopPath p2dev p3dev : String) (flavor : OsFlavor) :
    M String := do
  ioOp -- File::create fstab
  let out3 ← execCmd "blkid" ["-o", "export", p3dev] []
  let p3_fs_uuid := uuidFilter out3
  writeLineTo (root ++ "/etc/fstab") (fstabRootLine p3_fs_uuid)
  let out2 ← execCmd "blkid" ["-o", "export", p2dev] []
  let p2_fs_uuid := uuidFilter out2
  writeLineTo (root ++ "/etc/fstab") (fstabEfiLine p2_fs_uuid)
  match flavor with
  | OsFlavor.alpine => do
      writeLineTo (root ++ "/etc/fstab") fstabTmpfsLine
      let swap_partition := loopPath ++ "p4"
      let _ ← execCmd "mkswap" [swap_partition] []
      let outSwap ← execCmd "blkid" ["-o", "export", swap_partition] []
      let swap_uuid := uuidFilter outSwap
      writeLineTo (root ++ "/etc/fstab") (fstabSwapLine swap_uuid)
  | _ => pure ()
  let _ ← execCmd "cat" [root ++ "/etc/fstab"] []
  pure p3_fs_uuid

/-- Clap binary, hosts/hostname and grub phase (bin lines 547-642). -/
def binStageBoot (root loopPath p3_fs_uuid : String) (flavor : OsFlavor) :
    M Unit := do
  ioOp -- File::create hosts
  writeLineTo (root ++ "/etc/hosts") hostsContent
  ioOp -- File::create hostname
  writeLineTo (root ++ "/etc/hostname") "alpine"
  let _ ← execCmd "mkdir" ["-p", root ++ "/boot/grub/"] []
  ioOp -- File::create device.map
  writeLineTo (root ++ "/boot/grub/device.map") ("(hd0) " ++ loopPath)
  let _ ← execCmd "mkdir" ["-p", root ++ "/etc/default/"] []
  ioOp -- File::create /etc/default/grub
  writeLineTo (root ++ "/etc/default/grub") (grubDeviceLine p3_fs_uuid)
  writeLineTo (root ++ "/etc/default/grub") "GRUB_TERMINAL=\"serial console\""
  writeLineTo (root ++ "/etc/default/grub")
    (match flavor with
     | OsFlavor.debian | OsFlavor.ubuntu =>
        "GRUB_CMDLINE_LINUX_DEFAULT=\"quiet splash console=ttyS0,115200 init=/lib/systemd/systemd-bootchart\""
     | OsFlavor.alpine =>
        "GRUB_CMDLINE_LINUX_DEFAULT=\"quiet splash console=tty0 console=ttyS0,115200 rootfstype=ext4 modules=sd-mod,usb-storage,nvme,ext4\"")
  let _ ← execCmd "grub-install"
    ["--target=x86_64-efi", "--efi-directory=" ++ root ++ "/boot/efi/",
     "--root-directory=" ++ root, "--no-floppy", loopPath] []
  let _ ← execCmd "chroot" [root, "grub-mkconfig", "-o", "/boot/grub/grub.cfg"] []
  let _ ← execCmd "chroot" [root, "rm", "/boot/grub/device.map"] []
  pure ()

/-- Clap binary, initramfs phase (bin lines 644-724): Debian/Ubuntu run
`update-initramfs -u`; Alpine enumerates `/lib/modules/`, bails unless exactly
one kernel version directory exists, rebuilds the initramfs for it, and
enables the ttyS0 console. -/
def binStageInitramfs (root : String) (flavor : OsFlavor) : M Unit := do
  match flavor with
  | OsFlavor.debian | OsFlavor.ubuntu =>
      let _ ← execCmd "chroot" [root, "update-initramfs", "-u"] []
      pure ()
  | OsFlavor.alpine => do
      let kernelversion ← ioRead (fun e => e.modulesDirs)
      match alpineKernelVersionCheck kernelversion with
      | Except.error _ => abortRun
      | Except.ok kv =>
          let _ ← execCmd "chroot"
            [root, "mkinitfs", "-c", "/etc/mkinitfs/mkinitfs.conf", "-b", "/", kv] []
          pure ()
  match flavor with
  | OsFlavor.alpine =>
      let _ ← execCmd "chroot"
        [root, "sed", "-i", "-e", "s/^#ttyS0/ttyS0/g", "/etc/inittab"] []
      pure ()
  | _ => pure ()

/-- Root-password phase, shared by both binaries (bin lines 726-750, main.rs
lines 523-547): pick the supplied or generated password and run the raw
`passwd` child. -/
def stagePasswd (root : String) (root_passwd : Option String) : M Unit := do
  let pw ← envRead (fun e =>
    match root_passwd with
    | some v => v
    | none => e.randPasswd)
  passwdStep root pw

/-- Cleanup phase, shared by both binaries (bin lines 752-764, main.rs lines
549-557): explicit drops in source order, then the final copy/rename of the
image (an io operation). -/
def stageCleanup (bindDev bindProc bindSys mnt2 mnt3 : Nat) : M Unit := do
  explicitDrop bindDev
  explicitDrop bindProc
  explicitDrop bindSys
  explicitDrop mnt2
  explicitDrop mnt3
  ioOp

/-- The body of the clap binary's `main`
(src/src/bin/docker_to_uefi_bootable_image.rs, lines 53-768), as the ordered
composition of its phases, up to (but not including) the end of scope where
the `PartitionedLoopbackDisk` is dropped. -/
def docker_to_uefi_body (image_name _output_file : String) (_disk_size : Nat)
    (root_passwd : Option String) (extra_packages : List String)
    (flavor : OsFlavor) : M Unit := do
  let ctx ← binStagePre image_name
  binStageInstall ctx.root extra_packages flavor
  let p3_fs_uuid ← binStageFstab ctx.root ctx.loopPath ctx.p2dev ctx.p3dev flavor
  binStageBoot ctx.root ctx.loopPath p3_fs_uuid flavor
  binStageInitramfs ctx.root flavor
  stagePasswd ctx.root root_passwd
  stageCleanup ctx.bindDev ctx.bindProc ctx.bindSys ctx.mnt2 ctx.mnt3

/-- The clap binary's whole `main`: the body, then the end of scope where the
`PartitionedLoopbackDisk` (and with it the `LoopbackDevice`) is dropped. -/
def docker_to_uefi_main (image_name output_file : String) (disk_size : Nat)
    (root_passwd : Option String) (extra_packages : List String)
    (flavor : OsFlavor) : M Unit := do
  docker_to_uefi_body image_name output_file disk_size root_passwd
    extra_packages flavor
  scopeEnd

/-- Setup context of the structopt binary (src/src/main.rs). -/
structure MainCtx where
  wd : String
  loopPath : String
  p2dev : String
  p3dev : String
  root : String
  mnt3 : Nat
  mnt2 : Nat
  bindDev : Nat
  bindProc : Nat
  bindSys : Nat

/-- Structopt binary, setup phase (main.rs lines 224-366): the partitions are
created on the backing file itself, before the loop attachment. -/
def mainStagePre (image_name : String) : M MainCtx := do
  ioOp
  ioOp
  ioOp
  let wd ← envRead (fun e => e.wd)
  let imgPath := img_path_of wd
  let _ ← execCmd "sgdisk"
    ["-n", "1:2048:4095", "-c", "1:\"BIOS Boot Partition\"", "-t", "1:ef02", imgPath] []
  let _ ← execCmd "sgdisk"
    ["-n", "2:4096:413695", "-c", "2:\"EFI System Partition\"", "-t", "2:ef00", imgPath] []
  let _ ← execCmd "sgdisk" ["-n", "3:413696:", imgPath] []
  let loopPath ← LoopbackDevice_new imgPath
  let p2dev := loopPath ++ "p2"
  let p3dev := loopPath ++ "p3"
  let _ ← execCmd "partprobe" [loopPath] []
  let _ ← execCmd "mkfs.vfat" ["-F", "32", p2dev] []
  let _ ← execCmd "mkfs.ext4" [p3dev] []
  let root := mount_root_path wd
  let mnt3 ← Mount_new p3dev root
  let mnt2 ← Mount_new p2dev (root ++ "/boot/efi")
  let _ ← execCmd "mkdir" ["-p", root ++ "/boot/efi/EFI/BOOT/"] []
  let tempname ← envRead (fun e => e.tempname)
  let exportPath := export_path_of wd
  let _ ← execCmd "docker"
    ["run", "-d", "--entrypoint=/bin/sh", "--name", tempname, image_name] []
  let _ ← execCmd "docker" ["export", "-o", exportPath, tempname] []
  let _ ← execCmd "docker" ["stop", tempname] []
  let _ ← execCmd "docker" ["rm", tempname] []
  let _ ← execCmd "tar" ["--sparse", "-C", root, "-xf", exportPath] []
  ioOp -- std::fs::copy of /etc/resolv.conf
  let bindDev ← Mount_bind "/dev" (root ++ "/dev")
  let bindProc ← Mount_bind "/proc" (root ++ "/proc")
  let bindSys ← Mount_bind "/sys" (root ++ "/sys")
  pure ⟨wd, loopPath, p2dev, p3dev, root, mnt3, mnt2, bindDev, bindProc, bindSys⟩

/-- Structopt binary, install phase (main.rs lines 368-418): `apt update` runs
unconditionally; only then is the flavor string examined, and anything but
"debian"/"ubuntu" bails (`bail!("flavor not supported!")`), after every
resource has been acquired. -/
def mainStageInstall (root : String) (extra_packages : List String)
    (flavor : String) : M Unit := do
  let _ ← execCmd "chroot" [root, "apt", "update", "-y"] []
  let kernel_pkg ←
    (if flavor == "debian" then pure "linux-image-amd64"
     else if flavor == "ubuntu" then pure "linux-image-generic"
     else abortRun : M String)
  let _ ← execCmd "chroot"
    [root, "apt", "install", "-y", kernel_pkg, "systemd-sysv",
     "grub2-common", "grub-efi-amd64-bin", "initramfs-tools"] []
  if extra_packages.isEmpty then pure ()
  else do
    let _ ← execCmd "chroot" ([root, "apt", "install", "-y"] ++ extra_packages) []
    pure ()

/-- Structopt binary, fstab phase (main.rs lines 420-449): no tmpfs or swap
entry, and the root entry lacks `defaults,`. -/
def mainStageFstab (root p2dev p3dev : String) : M String := do
  ioOp -- File::create fstab
  let out3 ← execCmd "blkid" ["-o", "export", p3dev] []
  let p3_fs_uuid := uuidFilter out3
  writeLineTo (root ++ "/etc/fstab") (fstabRootLineMainRs p3_fs_uuid)
  let out2 ← execCmd "blkid" ["-o", "export", p2dev] []
  let p2_fs_uuid := uuidFilter out2
  writeLineTo (root ++ "/etc/fstab") (fstabEfiLine p2_fs_uuid)
  let _ ← execCmd "cat" [root ++ "/etc/fstab"] []
  pure p3_fs_uuid

/-- Structopt binary, grub and initramfs phase (main.rs lines 451-521): no
hosts/hostname write, no GRUB_TERMINAL line. -/
def mainStageBoot (root loopPath p3_fs_uuid : String) : M Unit := do
  let _ ← execCmd "mkdir" ["-p", root ++ "/boot/grub/"] []
  ioOp -- File::create device.map
  writeLineTo (root ++ "/boot/grub/device.map") ("(hd0) " ++ loopPath)
  let _ ← execCmd "mkdir" ["-p", root ++ "/etc/default/"] []
  ioOp -- File::create /etc/default/grub
  writeLineTo (root ++ "/etc/default/grub") (grubDeviceLine p3_fs_uuid)
  writeLineTo (root ++ "/etc/default/grub")
    "GRUB_CMDLINE_LINUX_DEFAULT=\"quiet splash console=tty0 console=ttyS0,115200\""
  let _ ← execCmd "grub-install"
    ["--target=x86_64-efi", "--efi-directory=" ++ root ++ "/boot/efi/",
     "--root-directory=" ++ root, "--no-floppy", loopPath] []
  let _ ← execCmd "chroot" [root, "grub-mkconfig", "-o", "/boot/grub/grub.cfg"] []
  let _ ← execCmd "chroot" [root, "rm", "/boot/grub/device.map"] []
  let _ ← execCmd "chroot" [root, "update-initramfs", "-u"] []
  pure ()

/-- The body of the structopt binary's `main` (src/src/main.rs, lines 207-562). -/
def main_rs_body (image_name _output_file : String) (_disk_size : Nat)
    (root_passwd : Option String) (extra_packages : List String)
    (flavor : String) : M Unit := do
  let ctx ← mainStagePre image_name
  mainStageInstall ctx.root extra_packages flavor
  let p3_fs_uuid ← mainStageFstab ctx.root ctx.p2dev ctx.p3dev
  mainStageBoot ctx.root ctx.loopPath p3_fs_uuid
  stagePasswd ctx.root root_passwd
  stageCleanup ctx.bindDev ctx.bindProc ctx.bindSys ctx.mnt2 ctx.mnt3

/-- The structopt binary's whole `main`: body, then end of scope. -/
def main_rs_main (image_name output_file : String) (disk_size : Nat)
    (root_passwd : Option String) (extra_packages : List String)
    (flavor : String) : M Unit := do
  main_rs_body image_name output_file disk_size root_passwd
    extra_packages flavor
  scopeEnd

/-- The empty initial state. -/
def initSt : St := ⟨[], [], 0, 0, 0⟩

/-- Run the clap binary's pipeline from scratch with already-parsed arguments. -/
def runBin (image_name output_file : String) (disk_size : Nat)
    (root_passwd : Option String) (extra_packages : List String)
    (flavor : OsFlavor) (env : Env) : St × Option Unit :=
  docker_to_uefi_main image_name output_file disk_size root_passwd
    extra_packages flavor env initSt

/-- The clap binary from the command line: `Args::parse()` rejects an
unsupported flavor string during parsing (`ValueEnum`), exiting non-zero
before the pipeline body runs. -/
def runBinCli (image_name output_file : String) (disk_size : Nat)
    (root_passwd : Option String) (extra_packages : List String)
    (flavorStr : String) (env : Env) : St × Option Unit :=
  match parseOsFlavor flavorStr with
  | none => (initSt, none)
  | some fl =>
      runBin image_name output_file disk_size root_passwd extra_packages fl env

/-- Parsed arguments of the structopt binary; its flavor is a plain string. -/
structure MainArgs where
  image_name : String
  output_file : String
  disk_size : Nat
  root_passwd : Option String
  extra_packages : List String
  flavor : String

/-- The structopt binary from the command line: `from_args_safe()?` returns
before the pipeline body on a parse failure (`none`); any present flavor
string parses successfully. -/
def runMainRs (parsed : Option MainArgs) (env : Env) : St × Option Unit :=
  match parsed with
  | none => (initSt, none)
  | some a =>
      main_rs_main a.image_name a.output_file a.disk_size a.root_passwd
        a.extra_packages a.flavor env initSt

/-! ## The umount-before-detach ordering (C2)

`sepOK t` scans a trace and fails exactly when an `umount` invocation occurs
anywhere after a `losetup -d` invocation.  We prove it holds for the final
trace of every run of both pipelines, by an invariant over the monad: along
the body no detach is ever emitted and the live stack keeps the loop device
at the bottom; any teardown then releases the mounts before the loop. -/

def isUmountCmd : Event → Bool
  | Event.cmd exe _ _ => exe == "umount"
  | _ => false

def isDetachCmd : Event → Bool
  | Event.cmd exe args _ => exe == "losetup" && args.head? == some "-d"
  | _ => false

/-- The trace contains no `losetup -d` invocation. -/
def noDetach (t : List Event) : Bool := t.all (fun e => !isDetachCmd e)

def sepOKGo : Bool → List Event → Bool
  | _, [] => true
  | seen, e :: rest =>
      if seen && isUmountCmd e then false
      else sepOKGo (seen || isDetachCmd e) rest

/-- No `umount` invocation occurs after any `losetup -d` invocation. -/
def sepOK (t : List Event) : Bool := sepOKGo false t

/-- Events a `DropCommand` may emit must be neither `umount` nor `losetup -d`
for the ordering invariant (the pipelines only register `chroot .. openrc
shutdown`). -/
def cmdShapeSafe (exe : String) (args : List String) : Bool :=
  !(exe == "umount") && !(exe == "losetup" && args.head? == some "-d")

def Res.safe : Res → Bool
  | Res.dropCommand _ exe args => cmdShapeSafe exe args
  | _ => true

def allLoops (l : List Res) : Bool := l.all Res.isLoop

/-- The live stack keeps loop devices strictly below every mount and guard:
once a loop is reached, only loops remain. -/
def liveOK : List Res → Bool
  | [] => true
  | r :: rest => r.safe && (if r.isLoop then allLoops rest else liveOK rest)

/-- The invariant maintained along the pipeline body: no detach has been
issued, and the live stack keeps loop devices at the bottom. -/
def SepInv (s : St) : Prop := noDetach s.trace = true ∧ liveOK s.live = true

/-- `m` preserves `SepInv` on success and leaves a `sepOK` trace on abort. -/
def GoodB {α : Type} (m : M α) : Prop :=
  ∀ env s, SepInv s →
    (∀ s' a, m env s = (s', some a) → SepInv s') ∧
    (∀ s', m env s = (s', none) → sepOK s'.trace = true)


/-! ## Trace projections and oracle instances used by the claims -/

/-- Destinations of `umount` invocations, in order. -/
def umountDests : List Event → List String
  | [] => []
  | Event.cmd "umount" [dest] _ :: rest => dest :: umountDests rest
  | _ :: rest => umountDests rest

/-- Destinations of `mount` invocations (plain and bind), in order. -/
def mountDests : List Event → List String
  | [] => []
  | Event.cmd "mount" [_, dest] _ :: rest => dest :: mountDests rest
  | Event.cmd "mount" [_, _, dest] _ :: rest => dest :: mountDests rest
  | _ :: rest => mountDests rest

/-- Sources of `losetup --show --find` (attach) invocations, in order. -/
def attachSources : List Event → List String
  | [] => []
  | Event.cmd "losetup" ["--show", "--find", src] _ :: rest => src :: attachSources rest
  | _ :: rest => attachSources rest

/-- The `(path, line)` pairs written into the image, in order. -/
def fsWrites : List Event → List (String × String)
  | [] => []
  | Event.fsWrite p c :: rest => (p, c) :: fsWrites rest
  | _ :: rest => fsWrites rest

/-- Argument tails (after `<root> apt install`) of every chrooted
`apt install` invocation, in order. -/
def aptInstallLists : List Event → List (List String)
  | [] => []
  | Event.cmd "chroot" (_ :: "apt" :: "install" :: rest) _ :: t =>
      rest :: aptInstallLists t
  | _ :: t => aptInstallLists t

/-- Argument lists of every `sgdisk` invocation, in order. -/
def sgdiskLists : List Event → List (List String)
  | [] => []
  | Event.cmd "sgdisk" args _ :: t => args :: sgdiskLists t
  | _ :: t => sgdiskLists t

/-- Argument lists of every `mkswap` invocation, in order. -/
def mkswapLists : List Event → List (List String)
  | [] => []
  | Event.cmd "mkswap" args _ :: t => args :: mkswapLists t
  | _ :: t => mkswapLists t

/-- Argument lists of every `mkfs.vfat` invocation, in order. -/
def mkfsVfatLists : List Event → List (List String)
  | [] => []
  | Event.cmd "mkfs.vfat" args _ :: t => args :: mkfsVfatLists t
  | _ :: t => mkfsVfatLists t

/-- Argument lists of every `mkfs.ext4` invocation, in order. -/
def mkfsExt4Lists : List Event → List (List String)
  | [] => []
  | Event.cmd "mkfs.ext4" args _ :: t => args :: mkfsExt4Lists t
  | _ :: t => mkfsExt4Lists t

/-- The kernel versions passed to chrooted `mkinitfs` invocations, in order. -/
def mkinitfsVersions : List Event → List String
  | [] => []
  | Event.cmd "chroot" [_, "mkinitfs", "-c", _, "-b", "/", kv] _ :: t =>
      kv :: mkinitfsVersions t
  | _ :: t => mkinitfsVersions t

/-- The raw child spawns (the `passwd` step), in order. -/
def spawnEvents : List Event → List (String × List String)
  | [] => []
  | Event.spawn exe args :: t => (exe, args) :: spawnEvents t
  | _ :: t => spawnEvents t

/-- Every external command completes with exit code 0, every Rust-side io
operation succeeds, and the `passwd` wait delivers a status. -/
def AllOk (env : Env) : Prop :=
  (∀ i, cmdOk (env.execResult i) = true) ∧ (∀ i, env.ioOk i = true) ∧
  (∃ o0, env.passwdResult = some o0)

/-- A successful child with empty output. -/
def okOut : Output := ⟨0, [], []⟩

/-- The bytes of a string (for concrete oracle stdout). -/
def strBytes (s : String) : List Nat := s.data.map Char.toNat

/-- A concrete all-success environment. -/
def allOkEnv : Env :=
  ⟨fun _ => some okOut, fun _ => true, ["5.15.0-virt"], "", "/tmp/wd", "tn", "pw",
   some okOut⟩

/-- Like `allOkEnv`, but every command prints one `UUID=...` line. -/
def uuidEnv : Env :=
  { allOkEnv with execResult := fun _ => some ⟨0, strBytes "UUID=D466-DF85", []⟩ }

/-- Like `allOkEnv`, but with two kernel module version directories. -/
def twoKernelsEnv : Env :=
  { allOkEnv with modulesDirs := ["5.15.0-virt", "6.1.0-virt"] }

/-- Like `allOkEnv`, but the `passwd` child exits with status 1. -/
def passwdFailEnv : Env :=
  { allOkEnv with passwdResult := some ⟨1, [], []⟩ }

/-! ## C3: the command executor contract -/

/-- C3: For every program, argument list and environment list, when the child
completes, `run_with_env` returns the whole captured `Output` (stdout and
stderr) iff the exit status is zero; on a non-zero exit it fails with the
error message carrying the captured stderr text; it consults the child's
result once and never succeeds on a non-zero exit. -/
theorem run_with_env_contract
    (exec : String → List String → List (String × String) → Option Output)
    (exe : String) (args : List String) (envv : List (String × String))
    (out : Output) (hexec : exec exe args envv = some out) :
    (out.code = 0 → run_with_env exec exe args envv = Except.ok out) ∧
    (out.code ≠ 0 → run_with_env exec exe args envv =
        Except.error ("Command failed!\n" ++ output_stderr_string out)) ∧
    (∀ out', run_with_env exec exe args envv = Except.ok out' →
        out' = out ∧ out.code = 0) := by
  refine ⟨?_, ?_, ?_⟩
  · intro h
    simp [run_with_env, hexec, h]
  · intro h
    simp [run_with_env, hexec, h]
  · intro out' h'
    by_cases hc : out.code = 0
    · simp [run_with_env, hexec, hc] at h'
      exact ⟨h'.symm, hc⟩
    · simp [run_with_env, hexec, hc] at h'

theorem run_with_env_contract_wit :
    run_with_env (fun _ _ _ => some ⟨0, [104, 105], []⟩) "ls" ["-al"] []
      = Except.ok ⟨0, [104, 105], []⟩ :=
  (run_with_env_contract (fun _ _ _ => some ⟨0, [104, 105], []⟩)
    "ls" ["-al"] [] ⟨0, [104, 105], []⟩ rfl).1 rfl


theorem sepOKGo_append (seen : Bool) (t1 t2 : List Event) :
    sepOKGo seen (t1 ++ t2) =
      (sepOKGo seen t1 && sepOKGo (seen || t1.any isDetachCmd) t2) := by
  induction t1 generalizing seen with
  | nil => simp [sepOKGo]
  | cons e t ih =>
      simp only [List.cons_append, sepOKGo, List.any_cons]
      by_cases h : (seen && isUmountCmd e) = true
      · simp [h]
      · rw [Bool.not_eq_true] at h
        simp [h, ih, Bool.or_assoc]

theorem noDetach_any (t : List Event) (h : noDetach t = true) :
    t.any isDetachCmd = false := by
  simp only [noDetach, List.all_eq_true] at h
  simp only [List.any_eq_false]
  intro e he
  have := h e he
  simpa using this

theorem sepOK_of_noDetach (t : List Event) (h : noDetach t = true) :
    sepOK t = true := by
  induction t with
  | nil => rfl
  | cons e t ih =>
      simp only [noDetach, List.all_cons, Bool.and_eq_true, Bool.not_eq_true'] at h
      have ht : noDetach t = true := by simp [noDetach, h.2]
      have h2 := ih ht
      rw [sepOK] at h2
      simp [sepOK, sepOKGo, h.1, h2]

theorem sepOK_append_one (t : List Event) (e : Event)
    (h : sepOK t = true) (hu : isUmountCmd e = false) :
    sepOK (t ++ [e]) = true := by
  rw [sepOK, sepOKGo_append]
  simp [sepOK] at h
  simp [h, sepOKGo, hu]

theorem sepOK_append_any (t : List Event) (e : Event) (h : noDetach t = true) :
    sepOK (t ++ [e]) = true := by
  rw [sepOK, sepOKGo_append]
  have h1 : sepOKGo false t = true := by
    have := sepOK_of_noDetach t h
    rwa [sepOK] at this
  simp [h1, sepOKGo, noDetach_any t h]

theorem noDetach_append_one (t : List Event) (e : Event)
    (h : noDetach t = true) (hd : isDetachCmd e = false) :
    noDetach (t ++ [e]) = true := by
  simp [noDetach] at *
  exact ⟨h, hd⟩


theorem Res.safe_of_isLoop (r : Res) (h : r.isLoop = true) : r.safe = true := by
  cases r <;> simp_all [Res.isLoop, Res.safe]

theorem liveOK_of_allLoops (l : List Res) (h : allLoops l = true) :
    liveOK l = true := by
  induction l with
  | nil => rfl
  | cons r rest ih =>
      simp only [allLoops, List.all_cons, Bool.and_eq_true] at h
      have := Res.safe_of_isLoop r h.1
      simp [liveOK, this, h.1, allLoops, h.2]

theorem liveOK_cons (r : Res) (l : List Res) (h : liveOK l = true)
    (hs : r.safe = true) (hl : r.isLoop = false) :
    liveOK (r :: l) = true := by
  simp [liveOK, hs, hl, h]

theorem liveOK_append_loop (l : List Res) (r : Res) (h : liveOK l = true)
    (hr : r.isLoop = true) :
    liveOK (l ++ [r]) = true := by
  induction l with
  | nil => simp [liveOK, Res.safe_of_isLoop r hr, hr, allLoops]
  | cons x xs ih =>
      simp only [liveOK, Bool.and_eq_true] at h
      by_cases hx : x.isLoop = true
      · simp only [hx, if_true] at h
        simp only [List.cons_append, liveOK, hx, if_true, h.1, Bool.true_and]
        simp [allLoops, List.all_append] at *
        exact ⟨h.2, hr⟩
      · rw [Bool.not_eq_true] at hx
        simp only [hx, Bool.false_eq_true, ite_false] at h
        simp [List.cons_append, liveOK, hx, h.1, ih h.2]

theorem allLoops_filter (l : List Res) (p : Res → Bool) (h : allLoops l = true) :
    allLoops (l.filter p) = true := by
  induction l with
  | nil => rfl
  | cons x xs ih =>
      simp only [allLoops, List.all_cons, Bool.and_eq_true] at h
      by_cases hp : p x = true
      · simp [List.filter_cons, hp, allLoops, h.1]
        have := ih h.2
        simpa [allLoops] using this
      · simp only [List.filter_cons, hp, Bool.false_eq_true, ite_false]
        exact ih h.2

theorem liveOK_filter (l : List Res) (p : Res → Bool) (h : liveOK l = true) :
    liveOK (l.filter p) = true := by
  induction l with
  | nil => rfl
  | cons x xs ih =>
      simp only [liveOK, Bool.and_eq_true] at h
      by_cases hx : x.isLoop = true
      · simp only [hx, if_true] at h
        by_cases hp : p x = true
        · simp only [List.filter_cons, hp, ite_true]
          have : allLoops (xs.filter p) = true := allLoops_filter xs p h.2
          simp [liveOK, h.1, hx, this]
        · simp only [List.filter_cons, hp, Bool.false_eq_true, ite_false]
          exact liveOK_of_allLoops _ (allLoops_filter xs p h.2)
      · rw [Bool.not_eq_true] at hx
        simp only [hx, Bool.false_eq_true, ite_false] at h
        by_cases hp : p x = true
        · simp only [List.filter_cons, hp, ite_true]
          exact liveOK_cons x _ (ih h.2) h.1 hx
        · simp only [List.filter_cons, hp, Bool.false_eq_true, ite_false]
          exact ih h.2

theorem liveOK_mem_safe (l : List Res) (r : Res) (h : liveOK l = true)
    (hm : r ∈ l) : r.safe = true := by
  induction l with
  | nil => cases hm
  | cons x xs ih =>
      simp only [liveOK, Bool.and_eq_true] at h
      rcases List.mem_cons.mp hm with rfl | hm'
      · exact h.1
      · by_cases hx : x.isLoop = true
        · simp only [hx, if_true] at h
          have : r.isLoop = true := by
            have := h.2
            simp only [allLoops, List.all_eq_true] at this
            exact this r hm'
          exact Res.safe_of_isLoop r this
        · rw [Bool.not_eq_true] at hx
          simp only [hx, Bool.false_eq_true, ite_false] at h
          exact ih h.2 hm'

theorem releaseRes_live (env : Env) (r : Res) (s : St) :
    (releaseRes env r s).1.live = s.live := by
  cases r with
  | mount i d =>
      by_cases hc : cmdOk (env.execResult s.cmdIdx) = true <;> simp [releaseRes, hc]
  | loopdev i p => simp [releaseRes]
  | dropCommand i e a => simp [releaseRes]

theorem releaseRes_noDetach (env : Env) (r : Res) (s : St) (hr : r.safe = true)
    (hl : r.isLoop = false) (h : noDetach s.trace = true) :
    noDetach (releaseRes env r s).1.trace = true := by
  cases r with
  | mount i d =>
      by_cases hc : cmdOk (env.execResult s.cmdIdx) = true
      · simp only [releaseRes, hc, if_true]
        exact noDetach_append_one _ _ (noDetach_append_one _ _ h rfl) rfl
      · simp only [releaseRes, hc, Bool.false_eq_true, ite_false]
        exact noDetach_append_one _ _ h rfl
  | loopdev i p => simp [Res.isLoop] at hl
  | dropCommand i e a =>
      simp only [Res.safe, cmdShapeSafe, Bool.and_eq_true, Bool.not_eq_true'] at hr
      simp only [releaseRes]
      refine noDetach_append_one _ _ h ?_
      simp [isDetachCmd, hr.2]

theorem teardown_loops (env : Env) (l : List Res) : ∀ (pan : Bool) (s : St),
    allLoops l = true → sepOK s.trace = true →
    sepOK (teardownGo env l pan s).1.trace = true := by
  induction l with
  | nil => intro pan s _ h; simpa [teardownGo] using h
  | cons r rest ih =>
      intro pan s hall h
      simp only [allLoops, List.all_cons, Bool.and_eq_true] at hall
      cases r with
      | mount i d => simp [Res.isLoop] at hall
      | dropCommand i e a => simp [Res.isLoop] at hall
      | loopdev i p =>
          have hall' : allLoops rest = true := by simp [allLoops, hall.2]
          have hs' : sepOK (s.trace ++ [Event.cmd "losetup" ["-d", p] []]) = true :=
            sepOK_append_one s.trace _ h rfl
          by_cases hc : cmdOk (env.execResult s.cmdIdx) = true
          · simpa [teardownGo, releaseRes, hc] using ih pan _ hall' hs'
          · rw [Bool.not_eq_true] at hc
            by_cases hp : pan = true
            · simpa [teardownGo, releaseRes, hc, hp] using hs'
            · rw [Bool.not_eq_true] at hp
              simpa [teardownGo, releaseRes, hc, hp] using ih true _ hall' hs'

theorem teardown_sep (env : Env) (l : List Res) : ∀ (pan : Bool) (s : St),
    liveOK l = true → noDetach s.trace = true →
    sepOK (teardownGo env l pan s).1.trace = true := by
  induction l with
  | nil => intro pan s _ h; simpa [teardownGo] using sepOK_of_noDetach _ h
  | cons r rest ih =>
      intro pan s hlive hnd
      by_cases hl : r.isLoop = true
      · have hall : allLoops rest = true := by
          simp only [liveOK, hl, if_true, Bool.and_eq_true] at hlive
          exact hlive.2
        cases r with
        | mount i d => simp [Res.isLoop] at hl
        | dropCommand i e a => simp [Res.isLoop] at hl
        | loopdev i p =>
            have hs' : sepOK (s.trace ++ [Event.cmd "losetup" ["-d", p] []]) = true :=
              sepOK_append_any _ _ hnd
            by_cases hc : cmdOk (env.execResult s.cmdIdx) = true
            · simpa [teardownGo, releaseRes, hc] using teardown_loops env rest pan _ hall hs'
            · rw [Bool.not_eq_true] at hc
              by_cases hp : pan = true
              · simpa [teardownGo, releaseRes, hc, hp] using hs'
              · rw [Bool.not_eq_true] at hp
                simpa [teardownGo, releaseRes, hc, hp] using teardown_loops env rest true _ hall hs'
      · rw [Bool.not_eq_true] at hl
        have hsafe : r.safe = true := by
          simp only [liveOK, Bool.and_eq_true] at hlive
          exact hlive.1
        have hrest : liveOK rest = true := by
          simp only [liveOK, hl, Bool.false_eq_true, ite_false, Bool.and_eq_true] at hlive
          exact hlive.2
        rcases hrel : releaseRes env r s with ⟨s', failed⟩
        have hnd' : noDetach s'.trace = true := by
          have := releaseRes_noDetach env r s hsafe hl hnd
          rw [hrel] at this
          exact this
        cases failed with
        | false => simpa [teardownGo, hrel] using ih pan s' hrest hnd'
        | true =>
            by_cases hp : pan = true
            · simpa [teardownGo, hrel, hp] using sepOK_of_noDetach _ hnd'
            · rw [Bool.not_eq_true] at hp
              simpa [teardownGo, hrel, hp] using ih true s' hrest hnd'


theorem good_pure {α : Type} (a : α) : GoodB (Mpure a) := by
  intro env s hs
  constructor
  · intro s' a' h
    simp only [Mpure_app, Prod.mk.injEq, Option.some.injEq] at h
    rw [← h.1]
    exact hs
  · intro s' h
    simp [Mpure] at h

theorem good_bind {α β : Type} (m : M α) (f : α → M β)
    (hm : GoodB m) (hf : ∀ a, GoodB (f a)) : GoodB (Mbind m f) := by
  intro env s hs
  rcases hmr : m env s with ⟨s1, r⟩
  cases r with
  | none =>
      constructor
      · intro s' a h
        simp [Mbind, hmr] at h
      · intro s' h
        simp only [Mbind_app, hmr, Prod.mk.injEq, and_true] at h
        subst h
        exact (hm env s hs).2 _ hmr
  | some a =>
      have hs1 : SepInv s1 := (hm env s hs).1 s1 a hmr
      constructor
      · intro s' b h
        simp only [Mbind_app, hmr] at h
        exact ((hf a) env s1 hs1).1 s' b h
      · intro s' h
        simp only [Mbind_app, hmr] at h
        exact ((hf a) env s1 hs1).2 s' h

theorem good_abort {α : Type} : GoodB (abortRun : M α) := by
  intro env s hs
  constructor
  · intro s' a h
    simp [abortRun] at h
  · intro s' h
    simp only [abortRun, Prod.mk.injEq] at h
    rw [← h.1]
    exact teardown_sep env s.live false _ hs.2 hs.1

theorem good_execCmd (exe : String) (args : List String)
    (envv : List (String × String))
    (hd : isDetachCmd (Event.cmd exe args envv) = false) :
    GoodB (execCmd exe args envv) := by
  intro env s hs
  by_cases hc : cmdOk (env.execResult s.cmdIdx) = true
  · constructor
    · intro s' a h
      simp only [execCmd, hc, if_true, Prod.mk.injEq, Option.some.injEq] at h
      rw [← h.1]
      exact ⟨noDetach_append_one _ _ hs.1 hd, hs.2⟩
    · intro s' h
      simp [execCmd, hc] at h
  · rw [Bool.not_eq_true] at hc
    constructor
    · intro s' a h
      simp [execCmd, hc, abortRun] at h
    · intro s' h
      simp only [execCmd, hc, Bool.false_eq_true, ite_false, abortRun,
        Prod.mk.injEq] at h
      rw [← h.1]
      exact teardown_sep env s.live false _ hs.2 (noDetach_append_one _ _ hs.1 hd)

theorem good_ioOp : GoodB ioOp := by
  intro env s hs
  by_cases hc : env.ioOk s.ioIdx = true
  · constructor
    · intro s' a h
      simp only [ioOp, hc, if_true, Prod.mk.injEq] at h
      rw [← h.1]
      exact hs
    · intro s' h
      simp [ioOp, hc] at h
  · rw [Bool.not_eq_true] at hc
    constructor
    · intro s' a h
      simp [ioOp, hc, abortRun] at h
    · intro s' h
      simp only [ioOp, hc, Bool.false_eq_true, ite_false, abortRun,
        Prod.mk.injEq] at h
      rw [← h.1]
      exact teardown_sep env s.live false _ hs.2 hs.1

theorem good_ioRead {α : Type} (v : Env → α) : GoodB (ioRead v) := by
  intro env s hs
  by_cases hc : env.ioOk s.ioIdx = true
  · constructor
    · intro s' a h
      simp only [ioRead, hc, if_true, Prod.mk.injEq, Option.some.injEq] at h
      rw [← h.1]
      exact hs
    · intro s' h
      simp [ioRead, hc] at h
  · rw [Bool.not_eq_true] at hc
    constructor
    · intro s' a h
      simp [ioRead, hc, abortRun] at h
    · intro s' h
      simp only [ioRead, hc, Bool.false_eq_true, ite_false, abortRun,
        Prod.mk.injEq] at h
      rw [← h.1]
      exact teardown_sep env s.live false _ hs.2 hs.1

theorem good_envRead {α : Type} (v : Env → α) : GoodB (envRead v) := by
  intro env s hs
  constructor
  · intro s' a h
    simp only [envRead, Prod.mk.injEq, Option.some.injEq] at h
    rw [← h.1]
    exact hs
  · intro s' h
    simp [envRead] at h

theorem good_writeLineTo (path content : String) : GoodB (writeLineTo path content) := by
  intro env s hs
  have hnd : noDetach (s.trace ++ [Event.fsWrite path content]) = true :=
    noDetach_append_one _ _ hs.1 rfl
  by_cases hc : env.ioOk s.ioIdx = true
  · constructor
    · intro s' a h
      simp only [writeLineTo, hc, if_true, Prod.mk.injEq] at h
      rw [← h.1]
      exact ⟨hnd, hs.2⟩
    · intro s' h
      simp [writeLineTo, hc] at h
  · rw [Bool.not_eq_true] at hc
    constructor
    · intro s' a h
      simp [writeLineTo, hc, abortRun] at h
    · intro s' h
      simp only [writeLineTo, hc, Bool.false_eq_true, ite_false, abortRun,
        Prod.mk.injEq] at h
      rw [← h.1]
      exact teardown_sep env s.live false _ hs.2 hnd

theorem good_spawnEv (exe : String) (args : List String) : GoodB (spawnEv exe args) := by
  intro env s hs
  have hnd : noDetach (s.trace ++ [Event.spawn exe args]) = true :=
    noDetach_append_one _ _ hs.1 rfl
  by_cases hc : env.ioOk s.ioIdx = true
  · constructor
    · intro s' a h
      simp only [spawnEv, hc, if_true, Prod.mk.injEq] at h
      rw [← h.1]
      exact ⟨hnd, hs.2⟩
    · intro s' h
      simp [spawnEv, hc] at h
  · rw [Bool.not_eq_true] at hc
    constructor
    · intro s' a h
      simp [spawnEv, hc, abortRun] at h
    · intro s' h
      simp only [spawnEv, hc, Bool.false_eq_true, ite_false, abortRun,
        Prod.mk.injEq] at h
      rw [← h.1]
      exact teardown_sep env s.live false _ hs.2 hnd

theorem good_passwdWait : GoodB passwdWait := by
  intro env s hs
  rcases hp : env.passwdResult with _ | o
  · constructor
    · intro s' a h
      simp [passwdWait, hp, abortRun] at h
    · intro s' h
      simp only [passwdWait, hp, abortRun, Prod.mk.injEq] at h
      rw [← h.1]
      exact teardown_sep env s.live false _ hs.2 hs.1
  · constructor
    · intro s' a h
      simp only [passwdWait, hp, Prod.mk.injEq] at h
      rw [← h.1]
      exact hs
    · intro s' h
      simp [passwdWait, hp] at h

theorem good_pushMount (dest : String) : GoodB (pushMount dest) := by
  intro env s hs
  constructor
  · intro s' a h
    simp only [pushMount, Prod.mk.injEq, Option.some.injEq] at h
    rw [← h.1]
    exact ⟨hs.1, liveOK_cons _ _ hs.2 rfl rfl⟩
  · intro s' h
    simp [pushMount] at h

theorem good_pushLoop (path : String) : GoodB (pushLoop path) := by
  intro env s hs
  constructor
  · intro s' a h
    simp only [pushLoop, Prod.mk.injEq, Option.some.injEq] at h
    rw [← h.1]
    exact ⟨hs.1, liveOK_append_loop _ _ hs.2 rfl⟩
  · intro s' h
    simp [pushLoop] at h

theorem good_pushDropCommand (exe : String) (args : List String)
    (hsafe : cmdShapeSafe exe args = true) :
    GoodB (pushDropCommand exe args) := by
  intro env s hs
  constructor
  · intro s' a h
    simp only [pushDropCommand, Prod.mk.injEq, Option.some.injEq] at h
    rw [← h.1]
    refine ⟨hs.1, liveOK_cons _ _ hs.2 ?_ rfl⟩
    simpa [Res.safe] using hsafe
  · intro s' h
    simp [pushDropCommand] at h

theorem good_explicitDrop (i : Nat) : GoodB (explicitDrop i) := by
  intro env s hs
  rcases hf : s.live.find? (fun r => !r.isLoop && r.rid == i) with _ | r
  · constructor
    · intro s' a h
      simp only [explicitDrop, hf, Prod.mk.injEq] at h
      rw [← h.1]
      exact hs
    · intro s' h
      simp [explicitDrop, hf] at h
  · have hmem : r ∈ s.live := List.mem_of_find?_eq_some hf
    have hpred := List.find?_some hf
    simp only [Bool.and_eq_true, Bool.not_eq_true'] at hpred
    have hl : r.isLoop = false := hpred.1
    have hsafe : r.safe = true := liveOK_mem_safe _ _ hs.2 hmem
    have hlive' : liveOK (s.live.filter (fun r' => !(r'.rid == i))) = true :=
      liveOK_filter _ _ hs.2
    rcases hrel : releaseRes env r { s with live := s.live.filter (fun r' => !(r'.rid == i)) }
      with ⟨s', failed⟩
    have hnd' : noDetach s'.trace = true := by
      have := releaseRes_noDetach env r
        { s with live := s.live.filter (fun r' => !(r'.rid == i)) } hsafe hl hs.1
      rw [hrel] at this
      exact this
    have hlive'' : liveOK s'.live = true := by
      have := releaseRes_live env r
        { s with live := s.live.filter (fun r' => !(r'.rid == i)) }
      rw [hrel] at this
      rw [this]
      exact hlive'
    cases failed with
    | false =>
        constructor
        · intro s'' a h
          simp only [explicitDrop, hf, hrel, Prod.mk.injEq] at h
          rw [← h.1]
          exact ⟨hnd', hlive''⟩
        · intro s'' h
          simp [explicitDrop, hf, hrel] at h
    | true =>
        constructor
        · intro s'' a h
          simp [explicitDrop, hf, hrel] at h
        · intro s'' h
          simp only [explicitDrop, hf, hrel, Prod.mk.injEq] at h
          rw [← h.1]
          exact teardown_sep env s'.live true _ hlive'' hnd'

theorem good_Mount_new (src dest : String) : GoodB (Mount_new src dest) :=
  good_bind _ _ (good_execCmd _ _ _ rfl)
    (fun _ => good_bind _ _ (good_execCmd _ _ _ rfl)
      (fun _ => good_pushMount _))

theorem good_Mount_bind (src dest : String) : GoodB (Mount_bind src dest) :=
  good_bind _ _ (good_execCmd _ _ _ rfl)
    (fun _ => good_bind _ _ (good_execCmd _ _ _ rfl)
      (fun _ => good_pushMount _))

theorem good_LoopbackDevice_new (src : String) : GoodB (LoopbackDevice_new src) :=
  good_bind _ _ (good_execCmd _ _ _ rfl)
    (fun _ => good_bind _ _ (good_pushLoop _)
      (fun _ => good_pure _))

theorem good_passwdStep (root pw : String) : GoodB (passwdStep root pw) :=
  good_bind _ _ (good_spawnEv _ _)
    (fun _ => good_bind _ _ good_ioOp
      (fun _ => good_bind _ _ good_ioOp
        (fun _ => good_bind _ _ good_passwdWait
          (fun _ => good_pure _))))

theorem good_rcUpdateAddAll (root : String) : ∀ l, GoodB (rcUpdateAddAll root l)
  | [] => good_pure ()
  | (_, _) :: rest =>
      good_bind _ _ (good_execCmd _ _ _ rfl)
        (fun _ => good_rcUpdateAddAll root rest)


theorem good_ite {α : Type} (c : Prop) [Decidable c] (m1 m2 : M α)
    (h1 : GoodB m1) (h2 : GoodB m2) : GoodB (if c then m1 else m2) := by
  by_cases h : c
  · simpa [h] using h1
  · simpa [h] using h2

theorem good_exceptMatch {ε α β : Type} (x : Except ε α) (m1 : ε → M β)
    (m2 : α → M β) (h1 : ∀ e, GoodB (m1 e)) (h2 : ∀ a, GoodB (m2 a)) :
    GoodB (match x with | Except.error e => m1 e | Except.ok a => m2 a) := by
  cases x with
  | error e => exact h1 e
  | ok a => exact h2 a

set_option maxHeartbeats 3200000 in
theorem goodB_docker_body (img o : String) (d : Nat) (rp : Option String)
    (xs : List String) (fl : OsFlavor) :
    GoodB (docker_to_uefi_body img o d rp xs fl) := by
  cases fl <;>
    (unfold docker_to_uefi_body binStagePre binStageInstall binStageFstab
       binStageBoot binStageInitramfs stagePasswd stageCleanup
     repeat'
       first
       | apply good_bind
       | apply good_ite
       | apply good_exceptMatch
       | exact good_ioOp
       | exact good_pure _
       | exact good_envRead _
       | exact good_ioRead _
       | exact good_writeLineTo _ _
       | exact good_pushMount _
       | exact good_pushLoop _
       | exact good_explicitDrop _
       | exact good_spawnEv _ _
       | exact good_passwdWait
       | exact good_abort
       | exact good_rcUpdateAddAll _ _
       | apply good_pushDropCommand
       | apply good_execCmd
       | split
       | rfl
       | intro _)

set_option maxHeartbeats 3200000 in
theorem goodB_main_rs_body (img o : String) (d : Nat) (rp : Option String)
    (xs : List String) (fl : String) :
    GoodB (main_rs_body img o d rp xs fl) := by
  unfold main_rs_body mainStagePre mainStageInstall mainStageFstab
    mainStageBoot stagePasswd stageCleanup
  repeat'
    first
    | apply good_bind
    | apply good_ite
    | exact good_ioOp
    | exact good_pure _
    | exact good_envRead _
    | exact good_ioRead _
    | exact good_writeLineTo _ _
    | exact good_pushMount _
    | exact good_pushLoop _
    | exact good_explicitDrop _
    | exact good_spawnEv _ _
    | exact good_passwdWait
    | exact good_abort
    | apply good_execCmd
    | rfl
    | intro _

theorem scopeEnd_sep (env : Env) (s : St) (hs : SepInv s) :
    sepOK ((scopeEnd env s).1).trace = true :=
  teardown_sep env s.live false _ hs.2 hs.1

theorem SepInv_initSt : SepInv initSt := ⟨rfl, rfl⟩

theorem sepOK_runBin (img o : String) (d : Nat) (rp : Option String)
    (xs : List String) (fl : OsFlavor) (env : Env) :
    sepOK (runBin img o d rp xs fl env).1.trace = true := by
  have hb := goodB_docker_body img o d rp xs fl
  show sepOK (Mbind (docker_to_uefi_body img o d rp xs fl)
      (fun _ => scopeEnd) env initSt).1.trace = true
  rcases hr : docker_to_uefi_body img o d rp xs fl env initSt with ⟨s1, r⟩
  cases r with
  | none =>
      simp only [Mbind_app, hr]
      exact (hb env initSt SepInv_initSt).2 s1 hr
  | some a =>
      simp only [Mbind_app, hr]
      exact scopeEnd_sep env s1 ((hb env initSt SepInv_initSt).1 s1 a hr)

theorem sepOK_runMainRs (parsed : Option MainArgs) (env : Env) :
    sepOK (runMainRs parsed env).1.trace = true := by
  cases parsed with
  | none => rfl
  | some a =>
      have hb := goodB_main_rs_body a.image_name a.output_file a.disk_size
        a.root_passwd a.extra_packages a.flavor
      show sepOK (Mbind (main_rs_body a.image_name a.output_file a.disk_size
          a.root_passwd a.extra_packages a.flavor)
          (fun _ => scopeEnd) env initSt).1.trace = true
      rcases hr : main_rs_body a.image_name a.output_file a.disk_size
          a.root_passwd a.extra_packages a.flavor env initSt with ⟨s1, r⟩
      cases r with
      | none =>
          simp only [Mbind_app, hr]
          exact (hb env initSt SepInv_initSt).2 s1 hr
      | some u =>
          simp only [Mbind_app, hr]
          exact scopeEnd_sep env s1 ((hb env initSt SepInv_initSt).1 s1 u hr)

theorem sepOK_split (t t1 t2 t3 : List Event) (d u : Event)
    (h : sepOK t = true) (ht : t = t1 ++ d :: t2 ++ u :: t3)
    (hd : isDetachCmd d = true) : isUmountCmd u = false := by
  subst ht
  by_cases hu : isUmountCmd u = true
  · exfalso
    rw [sepOK, sepOKGo_append] at h
    simp only [Bool.and_eq_true] at h
    have h2 := h.2
    simp [List.any_append, List.any_cons, hd, sepOKGo, hu] at h2
  · rwa [Bool.not_eq_true] at hu

/-! ## Evaluation of the pipelines under an all-success oracle

These helper lemmas evaluate a whole run symbolically (command stdout, the
working directory, the container name and all other oracle data stay
arbitrary) and record every projection of the final trace that the claims
need. -/

set_option maxHeartbeats 6400000

theorem binEvalNoExtras (img o : String) (d : Nat) (rp : Option String)
    (fl : OsFlavor) (hfl : fl = OsFlavor.debian ∨ fl = OsFlavor.ubuntu)
    (env : Env) (h : AllOk env) :
    (runBin img o d rp [] fl env).2 = some () ∧
    mountDests (runBin img o d rp [] fl env).1.trace =
      [mount_root_path env.wd,
       mount_root_path env.wd ++ "/boot/efi",
       mount_root_path env.wd ++ "/dev",
       mount_root_path env.wd ++ "/proc",
       mount_root_path env.wd ++ "/sys"] ∧
    umountDests (runBin img o d rp [] fl env).1.trace =
      [mount_root_path env.wd ++ "/dev",
       mount_root_path env.wd ++ "/proc",
       mount_root_path env.wd ++ "/sys",
       mount_root_path env.wd ++ "/boot/efi",
       mount_root_path env.wd] ∧
    attachSources (runBin img o d rp [] fl env).1.trace = [img_path_of env.wd] ∧
    sgdiskLists (runBin img o d rp [] fl env).1.trace =
      [["-n", "1:2048:4095", "-c", "1:\"BIOS Boot Partition\"", "-t", "1:ef02",
        output_stdout_string ((env.execResult 0).getD default)],
       ["-n", "2:4096:413695", "-c", "2:\"EFI System Partition\"", "-t", "2:ef00",
        output_stdout_string ((env.execResult 0).getD default)],
       ["-n", "3:413696:", output_stdout_string ((env.execResult 0).getD default)]] ∧
    mkswapLists (runBin img o d rp [] fl env).1.trace = [] ∧
    mkfsVfatLists (runBin img o d rp [] fl env).1.trace =
      [["-F", "32", output_stdout_string ((env.execResult 0).getD default) ++ "p2"]] ∧
    mkfsExt4Lists (runBin img o d rp [] fl env).1.trace =
      [[output_stdout_string ((env.execResult 0).getD default) ++ "p3"]] ∧
    aptInstallLists (runBin img o d rp [] fl env).1.trace =
      [["-y", kernelPkgOf fl, "systemd-sysv", "grub2-common", "grub-efi-amd64-bin",
        "initramfs-tools"]] ∧
    mkinitfsVersions (runBin img o d rp [] fl env).1.trace = [] ∧
    spawnEvents (runBin img o d rp [] fl env).1.trace =
      [("chroot", [mount_root_path env.wd, "passwd"])] ∧
    fsWrites (runBin img o d rp [] fl env).1.trace =
      [(mount_root_path env.wd ++ "/etc/fstab",
        fstabRootLine (uuidFilter ((env.execResult 25).getD default))),
       (mount_root_path env.wd ++ "/etc/fstab",
        fstabEfiLine (uuidFilter ((env.execResult 26).getD default))),
       (mount_root_path env.wd ++ "/etc/hosts", hostsContent),
       (mount_root_path env.wd ++ "/etc/hostname", "alpine"),
       (mount_root_path env.wd ++ "/boot/grub/device.map",
        "(hd0) " ++ output_stdout_string ((env.execResult 0).getD default)),
       (mount_root_path env.wd ++ "/etc/default/grub",
        grubDeviceLine (uuidFilter ((env.execResult 25).getD default))),
       (mount_root_path env.wd ++ "/etc/default/grub",
        "GRUB_TERMINAL=\"serial console\""),
       (mount_root_path env.wd ++ "/etc/default/grub",
        "GRUB_CMDLINE_LINUX_DEFAULT=\"quiet splash console=ttyS0,115200 init=/lib/systemd/systemd-bootchart\"")] := by
  obtain ⟨h1, h2, o0, hp⟩ := h
  rcases hfl with rfl | rfl <;>
    simp [runBin, docker_to_uefi_main, docker_to_uefi_body, binStagePre, binStageInstall,
      binStageFstab, binStageBoot, binStageInitramfs, stagePasswd, stageCleanup,
      scopeEnd, initSt, Mbind_app, Mpure_app, execCmd, ioOp, ioRead, writeLineTo,
      envRead, pushMount, pushLoop, pushDropCommand, spawnEv, passwdWait, explicitDrop,
      Mount_new, Mount_bind, LoopbackDevice_new, passwdStep, rcUpdateAddAll,
      teardownGo, releaseRes, List.find?, List.filter, Res.rid, Res.isLoop,
      umountDests, mountDests, attachSources, fsWrites, aptInstallLists, sgdiskLists,
      mkswapLists, mkfsVfatLists, mkfsExt4Lists, mkinitfsVersions, spawnEvents,
      h1, h2, hp]

theorem binEvalExtras (img o : String) (d : Nat) (rp : Option String)
    (xs : List String) (hxs : xs.isEmpty = false)
    (fl : OsFlavor) (hfl : fl = OsFlavor.debian ∨ fl = OsFlavor.ubuntu)
    (env : Env) (h : AllOk env) :
    (runBin img o d rp xs fl env).2 = some () ∧
    aptInstallLists (runBin img o d rp xs fl env).1.trace =
      [["-y", kernelPkgOf fl, "systemd-sysv", "grub2-common", "grub-efi-amd64-bin",
        "initramfs-tools"],
       "-y" :: xs] ∧
    mountDests (runBin img o d rp xs fl env).1.trace =
      [mount_root_path env.wd,
       mount_root_path env.wd ++ "/boot/efi",
       mount_root_path env.wd ++ "/dev",
       mount_root_path env.wd ++ "/proc",
       mount_root_path env.wd ++ "/sys"] ∧
    umountDests (runBin img o d rp xs fl env).1.trace =
      [mount_root_path env.wd ++ "/dev",
       mount_root_path env.wd ++ "/proc",
       mount_root_path env.wd ++ "/sys",
       mount_root_path env.wd ++ "/boot/efi",
       mount_root_path env.wd] ∧
    fsWrites (runBin img o d rp xs fl env).1.trace =
      [(mount_root_path env.wd ++ "/etc/fstab",
        fstabRootLine (uuidFilter ((env.execResult 26).getD default))),
       (mount_root_path env.wd ++ "/etc/fstab",
        fstabEfiLine (uuidFilter ((env.execResult 27).getD default))),
       (mount_root_path env.wd ++ "/etc/hosts", hostsContent),
       (mount_root_path env.wd ++ "/etc/hostname", "alpine"),
       (mount_root_path env.wd ++ "/boot/grub/device.map",
        "(hd0) " ++ output_stdout_string ((env.execResult 0).getD default)),
       (mount_root_path env.wd ++ "/etc/default/grub",
        grubDeviceLine (uuidFilter ((env.execResult 26).getD default))),
       (mount_root_path env.wd ++ "/etc/default/grub",
        "GRUB_TERMINAL=\"serial console\""),
       (mount_root_path env.wd ++ "/etc/default/grub",
        "GRUB_CMDLINE_LINUX_DEFAULT=\"quiet splash console=ttyS0,115200 init=/lib/systemd/systemd-bootchart\"")] := by
  obtain ⟨h1, h2, o0, hp⟩ := h
  rcases hfl with rfl | rfl <;>
    simp [runBin, docker_to_uefi_main, docker_to_uefi_body, binStagePre, binStageInstall,
      binStageFstab, binStageBoot, binStageInitramfs, stagePasswd, stageCleanup,
      scopeEnd, initSt, Mbind_app, Mpure_app, execCmd, ioOp, ioRead, writeLineTo,
      envRead, pushMount, pushLoop, pushDropCommand, spawnEv, passwdWait, explicitDrop,
      Mount_new, Mount_bind, LoopbackDevice_new, passwdStep, rcUpdateAddAll,
      teardownGo, releaseRes, List.find?, List.filter, Res.rid, Res.isLoop,
      umountDests, mountDests, attachSources, fsWrites, aptInstallLists, sgdiskLists,
      mkswapLists, mkfsVfatLists, mkfsExt4Lists, mkinitfsVersions, spawnEvents,
      hxs, h1, h2, hp]

theorem binEvalAlpine (img o : String) (d : Nat) (rp : Option String)
    (xs : List String) (kv : String) (env : Env) (h : AllOk env)
    (hkv : env.modulesDirs = [kv]) :
    (runBin img o d rp xs OsFlavor.alpine env).2 = some () ∧
    mountDests (runBin img o d rp xs OsFlavor.alpine env).1.trace =
      [mount_root_path env.wd,
       mount_root_path env.wd ++ "/boot/efi",
       mount_root_path env.wd ++ "/dev",
       mount_root_path env.wd ++ "/proc",
       mount_root_path env.wd ++ "/sys"] ∧
    umountDests (runBin img o d rp xs OsFlavor.alpine env).1.trace =
      [mount_root_path env.wd ++ "/dev",
       mount_root_path env.wd ++ "/proc",
       mount_root_path env.wd ++ "/sys",
       mount_root_path env.wd ++ "/boot/efi",
       mount_root_path env.wd] ∧
    attachSources (runBin img o d rp xs OsFlavor.alpine env).1.trace =
      [img_path_of env.wd] ∧
    sgdiskLists (runBin img o d rp xs OsFlavor.alpine env).1.trace =
      [["-n", "1:2048:4095", "-c", "1:\"BIOS Boot Partition\"", "-t", "1:ef02",
        output_stdout_string ((env.execResult 0).getD default)],
       ["-n", "2:4096:413695", "-c", "2:\"EFI System Partition\"", "-t", "2:ef00",
        output_stdout_string ((env.execResult 0).getD default)],
       ["-n", "3:413696:", output_stdout_string ((env.execResult 0).getD default)]] ∧
    mkswapLists (runBin img o d rp xs OsFlavor.alpine env).1.trace =
      [[output_stdout_string ((env.execResult 0).getD default) ++ "p4"]] ∧
    mkfsVfatLists (runBin img o d rp xs OsFlavor.alpine env).1.trace =
      [["-F", "32", output_stdout_string ((env.execResult 0).getD default) ++ "p2"]] ∧
    mkfsExt4Lists (runBin img o d rp xs OsFlavor.alpine env).1.trace =
      [[output_stdout_string ((env.execResult 0).getD default) ++ "p3"]] ∧
    aptInstallLists (runBin img o d rp xs OsFlavor.alpine env).1.trace = [] ∧
    mkinitfsVersions (runBin img o d rp xs OsFlavor.alpine env).1.trace = [kv] ∧
    spawnEvents (runBin img o d rp xs OsFlavor.alpine env).1.trace =
      [("chroot", [mount_root_path env.wd, "passwd"])] ∧
    fsWrites (runBin img o d rp xs OsFlavor.alpine env).1.trace =
      [(mount_root_path env.wd ++ "/answers", answersContent),
       (mount_root_path env.wd ++ "/etc/fstab",
        fstabRootLine (uuidFilter ((env.execResult 50).getD default))),
       (mount_root_path env.wd ++ "/etc/fstab",
        fstabEfiLine (uuidFilter ((env.execResult 51).getD default))),
       (mount_root_path env.wd ++ "/etc/fstab", fstabTmpfsLine),
       (mount_root_path env.wd ++ "/etc/fstab",
        fstabSwapLine (uuidFilter ((env.execResult 53).getD default))),
       (mount_root_path env.wd ++ "/etc/hosts", hostsContent),
       (mount_root_path env.wd ++ "/etc/hostname", "alpine"),
       (mount_root_path env.wd ++ "/boot/grub/device.map",
        "(hd0) " ++ output_stdout_string ((env.execResult 0).getD default)),
       (mount_root_path env.wd ++ "/etc/default/grub",
        grubDeviceLine (uuidFilter ((env.execResult 50).getD default))),
       (mount_root_path env.wd ++ "/etc/default/grub",
        "GRUB_TERMINAL=\"serial console\""),
       (mount_root_path env.wd ++ "/etc/default/grub",
        "GRUB_CMDLINE_LINUX_DEFAULT=\"quiet splash console=tty0 console=ttyS0,115200 rootfstype=ext4 modules=sd-mod,usb-storage,nvme,ext4\"")] := by
  obtain ⟨h1, h2, o0, hp⟩ := h
  simp [runBin, docker_to_uefi_main, docker_to_uefi_body, binStagePre, binStageInstall,
    binStageFstab, binStageBoot, binStageInitramfs, stagePasswd, stageCleanup,
    scopeEnd, initSt, Mbind_app, Mpure_app, execCmd, ioOp, ioRead, writeLineTo,
    envRead, pushMount, pushLoop, pushDropCommand, spawnEv, passwdWait, explicitDrop,
    Mount_new, Mount_bind, LoopbackDevice_new, passwdStep, rcUpdateAddAll,
    teardownGo, releaseRes, List.find?, List.filter, Res.rid, Res.isLoop,
    umountDests, mountDests, attachSources, fsWrites, aptInstallLists, sgdiskLists,
    mkswapLists, mkfsVfatLists, mkfsExt4Lists, mkinitfsVersions, spawnEvents,
    alpineKernelVersionCheck, List.getLastD, hkv, h1, h2, hp]

theorem mainEvalBadFlavor (a : MainArgs) (env : Env)
    (h1 : ∀ i, cmdOk (env.execResult i) = true) (h2 : ∀ i, env.ioOk i = true)
    (hf1 : (a.flavor == "debian") = false) (hf2 : (a.flavor == "ubuntu") = false) :
    (runMainRs (some a) env).2 = none ∧
    attachSources (runMainRs (some a) env).1.trace = [img_path_of env.wd] ∧
    sgdiskLists (runMainRs (some a) env).1.trace =
      [["-n", "1:2048:4095", "-c", "1:\"BIOS Boot Partition\"", "-t", "1:ef02",
        img_path_of env.wd],
       ["-n", "2:4096:413695", "-c", "2:\"EFI System Partition\"", "-t", "2:ef00",
        img_path_of env.wd],
       ["-n", "3:413696:", img_path_of env.wd]] ∧
    mountDests (runMainRs (some a) env).1.trace =
      [mount_root_path env.wd,
       mount_root_path env.wd ++ "/boot/efi",
       mount_root_path env.wd ++ "/dev",
       mount_root_path env.wd ++ "/proc",
       mount_root_path env.wd ++ "/sys"] := by
  simp [runMainRs, main_rs_main, main_rs_body, mainStagePre, mainStageInstall,
    mainStageFstab, mainStageBoot, stagePasswd, stageCleanup,
    scopeEnd, initSt, Mbind_app, Mpure_app, execCmd, ioOp, ioRead, writeLineTo,
    envRead, pushMount, pushLoop, pushDropCommand, spawnEv, passwdWait, explicitDrop,
    Mount_new, Mount_bind, LoopbackDevice_new, passwdStep, abortRun,
    teardownGo, releaseRes, List.find?, List.filter, Res.rid, Res.isLoop,
    umountDests, mountDests, attachSources, sgdiskLists,
    hf1, hf2, h1, h2]

/-! ## String.join support for C10 -/

theorem strFoldl_append (l : List String) :
    ∀ init : String,
      l.foldl (fun r s => r ++ s) init = init ++ l.foldl (fun r s => r ++ s) "" := by
  induction l with
  | nil =>
      intro init
      apply String.ext
      simp [String.data_append]
  | cons x xs ih =>
      intro init
      show xs.foldl _ (init ++ x) = init ++ xs.foldl _ ("" ++ x)
      rw [ih (init ++ x), ih ("" ++ x)]
      apply String.ext
      simp [String.data_append]

theorem strJoin_append (a b : List String) :
    String.join (a ++ b) = String.join a ++ String.join b := by
  rw [String.join, String.join, String.join, List.foldl_append,
    strFoldl_append b (List.foldl (fun r s => r ++ s) "" a)]

/-! ## The claims -/

/-- C1 counterexample: on a successful Debian run, the release sequence of the
mount handles is `dev, proc, sys, EFI, root` while the exact reverse of the
creation sequence `root, EFI, dev, proc, sys` would be
`sys, proc, dev, EFI, root`: the teardown sequence is NOT the exact reverse of
the creation sequence (the three bind mounts are released in creation order). -/
theorem C1_counterexample :
    (runBin "img" "out" 8 none [] OsFlavor.debian allOkEnv).2 = some () ∧
    umountDests (runBin "img" "out" 8 none [] OsFlavor.debian allOkEnv).1.trace ≠
      (mountDests (runBin "img" "out" 8 none [] OsFlavor.debian allOkEnv).1.trace).reverse := by
  decide

/-- C1 (amended): on every successful run (any flavor, any extra-package
list), the mount handles are created in the order root, EFI, /dev, /proc,
/sys, and released with the three bind mounts first — in their creation order
/dev, /proc, /sys, not reversed — then the EFI mount, then the root mount. -/
theorem C1_release_order (img o : String) (d : Nat) (rp : Option String)
    (xs : List String) (fl : OsFlavor) (env : Env) (h : AllOk env)
    (halp : fl = OsFlavor.alpine → ∃ kv, env.modulesDirs = [kv]) :
    (runBin img o d rp xs fl env).2 = some () ∧
    mountDests (runBin img o d rp xs fl env).1.trace =
      [mount_root_path env.wd,
       mount_root_path env.wd ++ "/boot/efi",
       mount_root_path env.wd ++ "/dev",
       mount_root_path env.wd ++ "/proc",
       mount_root_path env.wd ++ "/sys"] ∧
    umountDests (runBin img o d rp xs fl env).1.trace =
      [mount_root_path env.wd ++ "/dev",
       mount_root_path env.wd ++ "/proc",
       mount_root_path env.wd ++ "/sys",
       mount_root_path env.wd ++ "/boot/efi",
       mount_root_path env.wd] := by
  cases fl with
  | debian =>
      cases xs with
      | nil =>
          have h' := binEvalNoExtras img o d rp OsFlavor.debian (Or.inl rfl) env h
          exact ⟨h'.1, h'.2.1, h'.2.2.1⟩
      | cons x xs' =>
          have h' := binEvalExtras img o d rp (x :: xs') rfl OsFlavor.debian
            (Or.inl rfl) env h
          exact ⟨h'.1, h'.2.2.1, h'.2.2.2.1⟩
  | ubuntu =>
      cases xs with
      | nil =>
          have h' := binEvalNoExtras img o d rp OsFlavor.ubuntu (Or.inr rfl) env h
          exact ⟨h'.1, h'.2.1, h'.2.2.1⟩
      | cons x xs' =>
          have h' := binEvalExtras img o d rp (x :: xs') rfl OsFlavor.ubuntu
            (Or.inr rfl) env h
          exact ⟨h'.1, h'.2.2.1, h'.2.2.2.1⟩
  | alpine =>
      obtain ⟨kv, hkv⟩ := halp rfl
      have h' := binEvalAlpine img o d rp xs kv env h hkv
      exact ⟨h'.1, h'.2.1, h'.2.2.1⟩

theorem C1_release_order_witness :
    (runBin "img" "out" 8 none [] OsFlavor.debian allOkEnv).2 = some () ∧
    mountDests (runBin "img" "out" 8 none [] OsFlavor.debian allOkEnv).1.trace =
      [mount_root_path allOkEnv.wd,
       mount_root_path allOkEnv.wd ++ "/boot/efi",
       mount_root_path allOkEnv.wd ++ "/dev",
       mount_root_path allOkEnv.wd ++ "/proc",
       mount_root_path allOkEnv.wd ++ "/sys"] ∧
    umountDests (runBin "img" "out" 8 none [] OsFlavor.debian allOkEnv).1.trace =
      [mount_root_path allOkEnv.wd ++ "/dev",
       mount_root_path allOkEnv.wd ++ "/proc",
       mount_root_path allOkEnv.wd ++ "/sys",
       mount_root_path allOkEnv.wd ++ "/boot/efi",
       mount_root_path allOkEnv.wd] :=
  C1_release_order "img" "out" 8 none [] OsFlavor.debian allOkEnv
    ⟨fun _ => rfl, fun _ => rfl, okOut, rfl⟩
    (fun _ => ⟨"5.15.0-virt", rfl⟩)

/-- C2: on every run of either binary — successful or aborting anywhere, with
any oracle behaviour — no `umount` invocation ever occurs after a `losetup -d`
invocation in the trace; in particular (third conjunct) whenever a trace
passes the `sepOK` scan, any event after a detach invocation is not an umount
invocation, so every umount precedes the detach. -/
theorem C2_umount_before_detach :
    (∀ (img o : String) (d : Nat) (rp : Option String) (xs : List String)
       (fl : OsFlavor) (env : Env),
       sepOK (runBin img o d rp xs fl env).1.trace = true) ∧
    (∀ (parsed : Option MainArgs) (env : Env),
       sepOK (runMainRs parsed env).1.trace = true) ∧
    (∀ (t t1 t2 t3 : List Event) (dEv uEv : Event),
       sepOK t = true → t = t1 ++ dEv :: t2 ++ uEv :: t3 →
       isDetachCmd dEv = true → isUmountCmd uEv = false) :=
  ⟨sepOK_runBin, sepOK_runMainRs, fun t t1 t2 t3 dEv uEv h ht hd =>
    sepOK_split t t1 t2 t3 dEv uEv h ht hd⟩

theorem C2_umount_before_detach_witness :
    sepOK (runBin "img" "out" 8 none [] OsFlavor.debian allOkEnv).1.trace = true ∧
    isUmountCmd (Event.fsWrite "/a" "b") = false :=
  ⟨C2_umount_before_detach.1 "img" "out" 8 none [] OsFlavor.debian allOkEnv,
   C2_umount_before_detach.2.2
     [Event.cmd "losetup" ["-d", "/dev/loop0"] [], Event.fsWrite "/a" "b"]
     [] [] [] (Event.cmd "losetup" ["-d", "/dev/loop0"] []) (Event.fsWrite "/a" "b")
     (by decide) rfl (by decide)⟩

/-- C4: the Alpine initramfs arm succeeds iff exactly one kernel module
version directory exists; with exactly one directory `v` the check yields `v`
and the pipeline's `mkinitfs` invocation rebuilds the initramfs for exactly
that version; with zero or two-or-more directories the run fails. -/
theorem C4_kernel_version_check :
    (∀ dirs : List String,
       (∃ v, alpineKernelVersionCheck dirs = Except.ok v) ↔ dirs.length = 1) ∧
    (∀ v, alpineKernelVersionCheck [v] = Except.ok v) ∧
    (∀ (img o : String) (d : Nat) (rp : Option String) (env : Env) (kv : String),
       AllOk env → env.modulesDirs = [kv] →
       (runBin img o d rp [] OsFlavor.alpine env).2 = some () ∧
       mkinitfsVersions (runBin img o d rp [] OsFlavor.alpine env).1.trace = [kv]) ∧
    (∀ (img o : String) (d : Nat) (rp : Option String) (env : Env),
       AllOk env → env.modulesDirs.length ≠ 1 →
       (runBin img o d rp [] OsFlavor.alpine env).2 = none) := by
  refine ⟨?_, ?_, ?_, ?_⟩
  · intro dirs
    constructor
    · rintro ⟨v, hv⟩
      by_contra hlen
      have hb : (dirs.length != 1) = true := by simpa [bne_iff_ne] using hlen
      simp [alpineKernelVersionCheck, hb] at hv
    · intro hlen
      refine ⟨dirs.getLastD "", ?_⟩
      simp [alpineKernelVersionCheck, hlen]
  · intro v
    rfl
  · intro img o d rp env kv h hkv
    have h' := binEvalAlpine img o d rp [] kv env h hkv
    exact ⟨h'.1, h'.2.2.2.2.2.2.2.2.2.1⟩
  · intro img o d rp env h hlen
    obtain ⟨h1, h2, o0, hp⟩ := h
    have hb : (env.modulesDirs.length != 1) = true := by
      simpa [bne_iff_ne] using hlen
    simp [runBin, docker_to_uefi_main, docker_to_uefi_body, binStagePre, binStageInstall,
      binStageFstab, binStageBoot, binStageInitramfs, stagePasswd, stageCleanup,
      scopeEnd, initSt, Mbind_app, Mpure_app, execCmd, ioOp, ioRead, writeLineTo,
      envRead, pushMount, pushLoop, pushDropCommand, spawnEv, passwdWait, explicitDrop,
      Mount_new, Mount_bind, LoopbackDevice_new, passwdStep, rcUpdateAddAll,
      teardownGo, releaseRes, List.find?, List.filter, Res.rid, Res.isLoop,
      alpineKernelVersionCheck, abortRun, hb, hlen, h1, h2, hp]

theorem C4_kernel_version_check_witness :
    alpineKernelVersionCheck ["5.15.0-virt"] = Except.ok "5.15.0-virt" ∧
    mkinitfsVersions
      (runBin "img" "out" 8 none [] OsFlavor.alpine allOkEnv).1.trace =
      ["5.15.0-virt"] ∧
    (runBin "img" "out" 8 none [] OsFlavor.alpine twoKernelsEnv).2 = none :=
  ⟨C4_kernel_version_check.2.1 "5.15.0-virt",
   (C4_kernel_version_check.2.2.1 "img" "out" 8 none allOkEnv "5.15.0-virt"
     ⟨fun _ => rfl, fun _ => rfl, okOut, rfl⟩ rfl).2,
   C4_kernel_version_check.2.2.2 "img" "out" 8 none twoKernelsEnv
     ⟨fun _ => rfl, fun _ => rfl, okOut, rfl⟩ (by decide)⟩

/-- C5: for every flavor (empty extra-package list), the fstab writes are
exactly one root entry and one EFI entry, plus — exactly on the Alpine path —
one tmpfs entry for /tmp and one swap entry; each partition entry is keyed by
the `UUID=`-filtered output of the corresponding `blkid -o export` probe,
which begins with `UUID=` whenever the probe prints a `UUID=` line. -/
theorem C5_fstab_entries (img o : String) (d : Nat) (rp : Option String)
    (fl : OsFlavor) (env : Env) (h : AllOk env)
    (halp : fl = OsFlavor.alpine → ∃ kv, env.modulesDirs = [kv])
    (hU : ∀ i, strLeadsWith (uuidFilter ((env.execResult i).getD default))
            "UUID=" = true) :
    ∃ u3 u2 u4 : String,
      strLeadsWith u3 "UUID=" = true ∧ strLeadsWith u2 "UUID=" = true ∧
      strLeadsWith u4 "UUID=" = true ∧
      fsWrites (runBin img o d rp [] fl env).1.trace =
        (match fl with
         | OsFlavor.alpine =>
            [(mount_root_path env.wd ++ "/answers", answersContent),
             (mount_root_path env.wd ++ "/etc/fstab", fstabRootLine u3),
             (mount_root_path env.wd ++ "/etc/fstab", fstabEfiLine u2),
             (mount_root_path env.wd ++ "/etc/fstab", fstabTmpfsLine),
             (mount_root_path env.wd ++ "/etc/fstab", fstabSwapLine u4),
             (mount_root_path env.wd ++ "/etc/hosts", hostsContent),
             (mount_root_path env.wd ++ "/etc/hostname", "alpine"),
             (mount_root_path env.wd ++ "/boot/grub/device.map",
              "(hd0) " ++ output_stdout_string ((env.execResult 0).getD default)),
             (mount_root_path env.wd ++ "/etc/default/grub", grubDeviceLine u3),
             (mount_root_path env.wd ++ "/etc/default/grub",
              "GRUB_TERMINAL=\"serial console\""),
             (mount_root_path env.wd ++ "/etc/default/grub",
              "GRUB_CMDLINE_LINUX_DEFAULT=\"quiet splash console=tty0 console=ttyS0,115200 rootfstype=ext4 modules=sd-mod,usb-storage,nvme,ext4\"")]
         | _ =>
            [(mount_root_path env.wd ++ "/etc/fstab", fstabRootLine u3),
             (mount_root_path env.wd ++ "/etc/fstab", fstabEfiLine u2),
             (mount_root_path env.wd ++ "/etc/hosts", hostsContent),
             (mount_root_path env.wd ++ "/etc/hostname", "alpine"),
             (mount_root_path env.wd ++ "/boot/grub/device.map",
              "(hd0) " ++ output_stdout_string ((env.execResult 0).getD default)),
             (mount_root_path env.wd ++ "/etc/default/grub", grubDeviceLine u3),
             (mount_root_path env.wd ++ "/etc/default/grub",
              "GRUB_TERMINAL=\"serial console\""),
             (mount_root_path env.wd ++ "/etc/default/grub",
              "GRUB_CMDLINE_LINUX_DEFAULT=\"quiet splash console=ttyS0,115200 init=/lib/systemd/systemd-bootchart\"")]) := by
  cases fl with
  | debian =>
      refine ⟨uuidFilter ((env.execResult 25).getD default),
        uuidFilter ((env.execResult 26).getD default),
        uuidFilter ((env.execResult 53).getD default),
        hU 25, hU 26, hU 53, ?_⟩
      exact (binEvalNoExtras img o d rp OsFlavor.debian (Or.inl rfl) env h).2.2.2.2.2.2.2.2.2.2.2
  | ubuntu =>
      refine ⟨uuidFilter ((env.execResult 25).getD default),
        uuidFilter ((env.execResult 26).getD default),
        uuidFilter ((env.execResult 53).getD default),
        hU 25, hU 26, hU 53, ?_⟩
      exact (binEvalNoExtras img o d rp OsFlavor.ubuntu (Or.inr rfl) env h).2.2.2.2.2.2.2.2.2.2.2
  | alpine =>
      obtain ⟨kv, hkv⟩ := halp rfl
      refine ⟨uuidFilter ((env.execResult 50).getD default),
        uuidFilter ((env.execResult 51).getD default),
        uuidFilter ((env.execResult 53).getD default),
        hU 50, hU 51, hU 53, ?_⟩
      exact (binEvalAlpine img o d rp [] kv env h hkv).2.2.2.2.2.2.2.2.2.2.2

theorem C5_fstab_entries_witness :
    ∃ u3 u2 u4 : String,
      strLeadsWith u3 "UUID=" = true ∧ strLeadsWith u2 "UUID=" = true ∧
      strLeadsWith u4 "UUID=" = true ∧
      fsWrites (runBin "img" "out" 8 none [] OsFlavor.debian uuidEnv).1.trace =
        [(mount_root_path uuidEnv.wd ++ "/etc/fstab", fstabRootLine u3),
         (mount_root_path uuidEnv.wd ++ "/etc/fstab", fstabEfiLine u2),
         (mount_root_path uuidEnv.wd ++ "/etc/hosts", hostsContent),
         (mount_root_path uuidEnv.wd ++ "/etc/hostname", "alpine"),
         (mount_root_path uuidEnv.wd ++ "/boot/grub/device.map",
          "(hd0) " ++ output_stdout_string ((uuidEnv.execResult 0).getD default)),
         (mount_root_path uuidEnv.wd ++ "/etc/default/grub", grubDeviceLine u3),
         (mount_root_path uuidEnv.wd ++ "/etc/default/grub",
          "GRUB_TERMINAL=\"serial console\""),
         (mount_root_path uuidEnv.wd ++ "/etc/default/grub",
          "GRUB_CMDLINE_LINUX_DEFAULT=\"quiet splash console=ttyS0,115200 init=/lib/systemd/systemd-bootchart\"")] :=
  C5_fstab_entries "img" "out" 8 none OsFlavor.debian uuidEnv
    ⟨fun _ => rfl, fun _ => rfl, okOut, rfl⟩
    (fun hc => absurd hc (by decide))
    (fun _ => by simp only [uuidEnv, allOkEnv]; decide)

/-- C6 counterexample: with flavor Debian and `extra_packages = ["vim",
"curl"]`, the chrooted install step issues two invocations — the base one
with only the base packages, and a second `apt install -y vim curl` — and no
single invocation receives the extras appended to the base package set, so
the claim as stated (extras appended to the invocation installing the
kernel) is false. -/
theorem C6_counterexample :
    aptInstallLists
        (runBin "img" "out" 8 none ["vim", "curl"] OsFlavor.debian allOkEnv).1.trace =
      [["-y", "linux-image-amd64", "systemd-sysv", "grub2-common",
        "grub-efi-amd64-bin", "initramfs-tools"],
       ["-y", "vim", "curl"]] ∧
    ¬ ∃ args ∈ aptInstallLists
        (runBin "img" "out" 8 none ["vim", "curl"] OsFlavor.debian allOkEnv).1.trace,
        "linux-image-amd64" ∈ args ∧ "vim" ∈ args := by
  decide

/-- C6 (amended): with flavor Debian or Ubuntu and a non-empty extra-package
list, the chrooted install step issues exactly two `apt install` invocations:
the base one receives exactly the kernel, init system, grub and initramfs
packages, and a second separate invocation receives exactly the
caller-supplied package names. -/
theorem C6_extra_packages (img o : String) (d : Nat) (rp : Option String)
    (xs : List String) (fl : OsFlavor) (env : Env)
    (hfl : fl = OsFlavor.debian ∨ fl = OsFlavor.ubuntu)
    (hxs : xs ≠ []) (h : AllOk env) :
    (runBin img o d rp xs fl env).2 = some () ∧
    aptInstallLists (runBin img o d rp xs fl env).1.trace =
      [["-y", kernelPkgOf fl, "systemd-sysv", "grub2-common",
        "grub-efi-amd64-bin", "initramfs-tools"],
       "-y" :: xs] := by
  have hxs' : xs.isEmpty = false := by
    cases xs with
    | nil => exact absurd rfl hxs
    | cons a l => rfl
  have h' := binEvalExtras img o d rp xs hxs' fl hfl env h
  exact ⟨h'.1, h'.2.1⟩

theorem C6_extra_packages_witness :
    (runBin "img" "out" 8 none ["vim", "curl"] OsFlavor.debian allOkEnv).2 = some () ∧
    aptInstallLists
        (runBin "img" "out" 8 none ["vim", "curl"] OsFlavor.debian allOkEnv).1.trace =
      [["-y", kernelPkgOf OsFlavor.debian, "systemd-sysv", "grub2-common",
        "grub-efi-amd64-bin", "initramfs-tools"],
       ["-y", "vim", "curl"]] :=
  C6_extra_packages "img" "out" 8 none ["vim", "curl"] OsFlavor.debian allOkEnv
    (Or.inl rfl) (by decide) ⟨fun _ => rfl, fun _ => rfl, okOut, rfl⟩

/-- C7 counterexample: the structopt binary (src/src/main.rs) given the
present-but-unsupported flavor string "alpine" exits with an error, but only
after acquiring resources: the loop device has been attached, the partition
table edited and all five mounts performed before the failure — the claim
that the program exits before acquiring any resource is false for this
binary. -/
theorem C7_counterexample :
    (runMainRs (some ⟨"img", "out", 8, none, [], "alpine"⟩) allOkEnv).2 = none ∧
    attachSources
      (runMainRs (some ⟨"img", "out", 8, none, [], "alpine"⟩) allOkEnv).1.trace ≠ [] ∧
    sgdiskLists
      (runMainRs (some ⟨"img", "out", 8, none, [], "alpine"⟩) allOkEnv).1.trace ≠ [] ∧
    mountDests
      (runMainRs (some ⟨"img", "out", 8, none, [], "alpine"⟩) allOkEnv).1.trace ≠ [] := by
  decide

/-- C7 (amended): argument-parse failures exit before any resource is touched
in both binaries, and in the clap binary an unsupported flavor string is such
a parse failure; but in the structopt binary a present, unsupported flavor
string passes parsing and the run aborts only at kernel-package selection,
after the backing file has been partitioned, the loop device attached and all
five mounts performed. -/
theorem C7_flavor_rejection :
    (∀ (img o : String) (d : Nat) (rp : Option String) (xs : List String)
       (s : String) (env : Env), parseOsFlavor s = none →
       runBinCli img o d rp xs s env = (initSt, none)) ∧
    (∀ env : Env, runMainRs none env = (initSt, none)) ∧
    (∀ (a : MainArgs) (env : Env),
       (∀ i, cmdOk (env.execResult i) = true) → (∀ i, env.ioOk i = true) →
       (a.flavor == "debian") = false → (a.flavor == "ubuntu") = false →
       (runMainRs (some a) env).2 = none ∧
       attachSources (runMainRs (some a) env).1.trace = [img_path_of env.wd] ∧
       mountDests (runMainRs (some a) env).1.trace =
         [mount_root_path env.wd,
          mount_root_path env.wd ++ "/boot/efi",
          mount_root_path env.wd ++ "/dev",
          mount_root_path env.wd ++ "/proc",
          mount_root_path env.wd ++ "/sys"]) := by
  refine ⟨?_, ?_, ?_⟩
  · intro img o d rp xs s env hs
    simp [runBinCli, hs]
  · intro env
    rfl
  · intro a env h1 h2 hf1 hf2
    have h' := mainEvalBadFlavor a env h1 h2 hf1 hf2
    exact ⟨h'.1, h'.2.1, h'.2.2.2⟩

theorem C7_flavor_rejection_witness :
    runBinCli "img" "out" 8 none [] "fedora" allOkEnv = (initSt, none) ∧
    (runMainRs (some ⟨"img", "out", 8, none, [], "fedora"⟩) allOkEnv).2 = none :=
  ⟨C7_flavor_rejection.1 "img" "out" 8 none [] "fedora" allOkEnv (by decide),
   (C7_flavor_rejection.2.2 ⟨"img", "out", 8, none, [], "fedora"⟩ allOkEnv
     (fun _ => rfl) (fun _ => rfl) (by decide) (by decide)).1⟩

/-- C8: the partitioning step issues exactly three `sgdisk` creation calls —
partition 1 (2048..4095, type ef02), partition 2 (4096..413695, type ef00)
and partition 3 (413696 to disk end) — and never creates a partition 4; the
partition device paths used afterwards are the loop path with suffix `p2`,
`p3` (mkfs) and, on the Alpine path, `p4`, which `mkswap` formats although no
fourth partition was ever added to the GPT. -/
theorem C8_partition_scheme (img o : String) (d : Nat) (rp : Option String)
    (env : Env) (kv : String) (h : AllOk env) (hkv : env.modulesDirs = [kv]) :
    (runBin img o d rp [] OsFlavor.alpine env).2 = some () ∧
    sgdiskLists (runBin img o d rp [] OsFlavor.alpine env).1.trace =
      [["-n", "1:2048:4095", "-c", "1:\"BIOS Boot Partition\"", "-t", "1:ef02",
        output_stdout_string ((env.execResult 0).getD default)],
       ["-n", "2:4096:413695", "-c", "2:\"EFI System Partition\"", "-t", "2:ef00",
        output_stdout_string ((env.execResult 0).getD default)],
       ["-n", "3:413696:", output_stdout_string ((env.execResult 0).getD default)]] ∧
    mkfsVfatLists (runBin img o d rp [] OsFlavor.alpine env).1.trace =
      [["-F", "32", output_stdout_string ((env.execResult 0).getD default) ++ "p2"]] ∧
    mkfsExt4Lists (runBin img o d rp [] OsFlavor.alpine env).1.trace =
      [[output_stdout_string ((env.execResult 0).getD default) ++ "p3"]] ∧
    mkswapLists (runBin img o d rp [] OsFlavor.alpine env).1.trace =
      [[output_stdout_string ((env.execResult 0).getD default) ++ "p4"]] := by
  have h' := binEvalAlpine img o d rp [] kv env h hkv
  exact ⟨h'.1, h'.2.2.2.2.1, h'.2.2.2.2.2.2.1, h'.2.2.2.2.2.2.2.1, h'.2.2.2.2.2.1⟩

theorem C8_partition_scheme_witness :
    (runBin "img" "out" 8 none [] OsFlavor.alpine allOkEnv).2 = some () ∧
    sgdiskLists (runBin "img" "out" 8 none [] OsFlavor.alpine allOkEnv).1.trace =
      [["-n", "1:2048:4095", "-c", "1:\"BIOS Boot Partition\"", "-t", "1:ef02",
        output_stdout_string ((allOkEnv.execResult 0).getD default)],
       ["-n", "2:4096:413695", "-c", "2:\"EFI System Partition\"", "-t", "2:ef00",
        output_stdout_string ((allOkEnv.execResult 0).getD default)],
       ["-n", "3:413696:", output_stdout_string ((allOkEnv.execResult 0).getD default)]] ∧
    mkfsVfatLists (runBin "img" "out" 8 none [] OsFlavor.alpine allOkEnv).1.trace =
      [["-F", "32", output_stdout_string ((allOkEnv.execResult 0).getD default) ++ "p2"]] ∧
    mkfsExt4Lists (runBin "img" "out" 8 none [] OsFlavor.alpine allOkEnv).1.trace =
      [[output_stdout_string ((allOkEnv.execResult 0).getD default) ++ "p3"]] ∧
    mkswapLists (runBin "img" "out" 8 none [] OsFlavor.alpine allOkEnv).1.trace =
      [[output_stdout_string ((allOkEnv.execResult 0).getD default) ++ "p4"]] :=
  C8_partition_scheme "img" "out" 8 none allOkEnv "5.15.0-virt"
    ⟨fun _ => rfl, fun _ => rfl, okOut, rfl⟩ rfl

/-- C9: the root-password step is the only external-child invocation whose
exit status is not checked: a run in which the spawned `passwd` child exits
with status 1 (all commands succeeding) still completes successfully, with
the `passwd` spawn in the trace; by contrast, any command issued through the
executor aborts the run when its exit status is non-zero, and only an io
failure of the `wait` aborts the passwd step. -/
theorem C9_passwd_unchecked :
    (∀ (img o : String) (d : Nat) (rp : Option String) (env : Env),
       (∀ i, cmdOk (env.execResult i) = true) → (∀ i, env.ioOk i = true) →
       env.passwdResult = some ⟨1, [], []⟩ →
       (runBin img o d rp [] OsFlavor.debian env).2 = some () ∧
       spawnEvents (runBin img o d rp [] OsFlavor.debian env).1.trace =
         [("chroot", [mount_root_path env.wd, "passwd"])]) ∧
    (∀ (env : Env) (s : St) (exe : String) (args : List String)
       (envv : List (String × String)),
       cmdOk (env.execResult s.cmdIdx) = false →
       (execCmd exe args envv env s).2 = none) ∧
    (∀ (env : Env) (s : St), env.passwdResult = none →
       (passwdWait env s).2 = none) := by
  refine ⟨?_, ?_, ?_⟩
  · intro img o d rp env h1 h2 hp
    have h' := binEvalNoExtras img o d rp OsFlavor.debian (Or.inl rfl) env
      ⟨h1, h2, ⟨1, [], []⟩, hp⟩
    exact ⟨h'.1, h'.2.2.2.2.2.2.2.2.2.2.1⟩
  · intro env s exe args envv hc
    simp [execCmd, hc, abortRun]
  · intro env s hp
    simp [passwdWait, hp, abortRun]

theorem C9_passwd_unchecked_witness :
    (runBin "img" "out" 8 none [] OsFlavor.debian passwdFailEnv).2 = some () ∧
    (execCmd "ls" ["-al"] []
      { passwdFailEnv with execResult := fun _ => some ⟨1, [], []⟩ } initSt).2 = none :=
  ⟨(C9_passwd_unchecked.1 "img" "out" 8 none passwdFailEnv
      (fun _ => rfl) (fun _ => rfl) rfl).1,
   C9_passwd_unchecked.2.1
     { passwdFailEnv with execResult := fun _ => some ⟨1, [], []⟩ } initSt
     "ls" ["-al"] [] rfl⟩

/-- C10: the UUID key is the concatenation, with no separator, of the
`UUID=`-prefixed lines of the probe output (the filter is a homomorphism for
appending line lists); when no line matches, the key is the empty string, the
fstab root entry is still written with an empty device field, the grub
defaults line degenerates to `GRUB_DEVICE=`, and the pipeline still succeeds
(no error is raised on an empty filter result). -/
theorem C10_uuid_filter :
    (∀ l1 l2 : List String,
       uuidFilterLines (l1 ++ l2) = uuidFilterLines l1 ++ uuidFilterLines l2) ∧
    (∀ o : Output,
       (∀ l ∈ strSplitNewline (output_stdout_string o),
          strLeadsWith l "UUID=" = false) →
       uuidFilter o = "") ∧
    fstabRootLine "" = " / ext4 defaults,errors=remount-ro 0 1" ∧
    grubDeviceLine "" = "GRUB_DEVICE=" ∧
    (∀ (img o : String) (d : Nat) (rp : Option String) (env : Env), AllOk env →
       (runBin img o d rp [] OsFlavor.debian env).2 = some ()) := by
  refine ⟨?_, ?_, rfl, rfl, ?_⟩
  · intro l1 l2
    simp [uuidFilterLines, List.filter_append, strJoin_append]
  · intro o hall
    have hnil : (strSplitNewline (output_stdout_string o)).filter
        (fun l => strLeadsWith l "UUID=") = [] := by
      rw [List.filter_eq_nil_iff]
      intro a ha
      simp [hall a ha]
    simp [uuidFilter, uuidFilterLines, hnil, String.join]
  · intro img o d rp env h
    exact (binEvalNoExtras img o d rp OsFlavor.debian (Or.inl rfl) env h).1

theorem C10_uuid_filter_witness :
    uuidFilter ⟨0, strBytes "TYPE=ext4\nPARTUUID=asdf", []⟩ = "" ∧
    (runBin "img" "out" 8 none [] OsFlavor.debian allOkEnv).2 = some () :=
  ⟨C10_uuid_filter.2.1 ⟨0, strBytes "TYPE=ext4\nPARTUUID=asdf", []⟩ (by decide),
   C10_uuid_filter.2.2.2.2 "img" "out" 8 none allOkEnv
     ⟨fun _ => rfl, fun _ => rfl, okOut, rfl⟩⟩
